import Mathlib

/-!
# Satellite terminal MAC (`src/model/satellite-ut-mac.cc`) and its neighbours

A shallow embedding of `ns3::SatUtMac`: the burst-time-plan scheduling
(`ScheduleTimeSlots`, `ScheduleTxOpportunity`), the transmission opportunity
(`TransmitTime`) and the reception path (`Receive`, `ReceiveSignalingPacket`).
It is followed by the receiver carrier configuration (`SatPhyRxCarrierConf`),
the elevation look-up of the Markov configuration (`SatMarkovConf`) and the
name, the settings and the installation of the statistics helper
(`SatStatsHelper`).

Calls that leave the MAC (the simulator, the trace sources, the callbacks of the
upper layer and `SendPacket` of the base class) are recorded, in program order,
in a trace of `Effect`s; `NS_FATAL_ERROR` ends a run with the message it prints.

Classes whose declarations are not part of the sources at hand (the frame
geometry, the TBTP header, the tags) appear by the accessors that the MAC calls
on them. The arithmetic on `double` and its conversion to `ns3::Time` is a
parameter (`DoubleOps`), so that every general statement holds for whatever the
floating-point unit computes; `exactOps` evaluates it on exact rationals.
-/

namespace ns3

/-! ## Collaborators of the MAC -/

/-- A value of `ns3::Time`: a signed count of ticks of the simulator resolution
(one nanosecond by default). `Time (1)` is one tick. Sums that leave the 64-bit
range of the C++ type are undefined there and are not modelled. -/
abbrev Time := Int

/-- A `Mac48Address`, as the 48-bit number its six bytes spell. -/
structure Mac48Address where
  m_address : Nat
  deriving DecidableEq, Repr

/-- The address `ff:ff:ff:ff:ff:ff` of `Mac48Address::GetBroadcast`. -/
def Mac48Address.GetBroadcast : Mac48Address := ⟨0xffffffffffff⟩

/-- The test `Mac48Address::IsBroadcast`. -/
def Mac48Address.IsBroadcast (a : Mac48Address) : Bool :=
  a == Mac48Address.GetBroadcast

/-- What the MAC does with values of type `double`, for a carrier type `D` of
such values: the product `superframeDuration * tbtp->GetSuperframeCounter ()`
of a double and an unsigned counter, the conversion `Seconds (double)` and the
conversion `Time::FromDouble (double, Time::S)`. -/
structure DoubleOps (D : Type) where
  mulCounter : D → Nat → D
  Seconds : D → Time
  FromDouble : D → Time

/-- Exact evaluation on rationals with a tick of one nanosecond: the product is
the rational product and a conversion keeps the whole nanoseconds. -/
def exactOps : DoubleOps ℚ where
  mulCounter := fun d n => d * (n : ℚ)
  Seconds := fun d => ⌊d * 1000000000⌋
  FromDouble := fun d => ⌊d * 1000000000⌋

/-- The accessors `GetStartTime_s`, `GetDuration_s` and `GetCarrierId` of a
`SatTimeSlotConf`: start offset and duration in seconds, carrier index inside
the frame. -/
structure SatTimeSlotConf (D : Type) where
  GetStartTime_s : D
  GetDuration_s : D
  GetCarrierId : Nat
  deriving DecidableEq, Repr

/-- A `SatFrameConf`, by its accessor `GetTimeSlotConf (index)`. -/
structure SatFrameConf (D : Type) where
  GetTimeSlotConf : Nat → SatTimeSlotConf D

/-- A `SatSuperframeConf`, by its accessor `GetFrameConf (index)`. -/
structure SatSuperframeConf (D : Type) where
  GetFrameConf : Nat → SatFrameConf D

/-- A `SatSuperframeSeq`, by the three accessors the MAC calls:
`GetDuration_s (superframe)`, `GetSuperframeConf (superframe)` and
`GetCarrierId (superframe, frame, carrier of the frame)`. -/
structure SatSuperframeSeq (D : Type) where
  GetDuration_s : Nat → D
  GetSuperframeConf : Nat → SatSuperframeConf D
  GetCarrierId : Nat → Nat → Nat → Nat

/-- One grant of a TBTP, `SatTbtpHeader::TbtpTimeSlotInfo`. -/
structure TbtpTimeSlotInfo where
  GetFrameId : Nat
  GetTimeSlotId : Nat
  deriving DecidableEq, Repr

/-- A decoded `SatTbtpHeader`, by the accessors the MAC calls; `GetTimeslots`
gives the grants of one terminal address, in the order of the header. -/
structure SatTbtpHeader where
  GetSuperframeId : Nat
  GetSuperframeCounter : Nat
  GetTimeslots : Mac48Address → List TbtpTimeSlotInfo

/-- The enumeration `SatControlMsgTag::SatControlMsgType_t`. The switch of
`ReceiveSignalingPacket` names three enumerators and has a `default` label;
`SAT_OTHER_CTRL_MSG` stands for any value that only the label catches. -/
inductive SatControlMsgType_t where
  | SAT_NON_CTRL_MSG
  | SAT_TBTP_CTRL_MSG
  | SAT_RA_CTRL_MSG
  | SAT_CR_CTRL_MSG
  | SAT_OTHER_CTRL_MSG (value : Nat)
  deriving DecidableEq, Repr

/-- The addressing tag `SatMacTag`. -/
structure SatMacTag where
  GetDestAddress : Mac48Address
  GetSourceAddress : Mac48Address
  deriving DecidableEq, Repr

/-- The control-message tag `SatControlMsgTag`. -/
structure SatControlMsgTag where
  GetMsgType : SatControlMsgType_t
  deriving DecidableEq, Repr

/-- A packet tag: an addressing tag, a control-message tag, or a tag of some
other type (named by a number). -/
inductive PacketTag where
  | mac (tag : SatMacTag)
  | ctrl (tag : SatControlMsgTag)
  | other (typeId : Nat)
  deriving DecidableEq, Repr

/-- A packet: its list of packet tags and its bytes. -/
structure Packet where
  m_packetTagList : List PacketTag
  m_buffer : List Nat
  deriving DecidableEq, Repr

/-- The first addressing tag in a tag list. -/
def findMacTag : List PacketTag → Option SatMacTag
  | [] => none
  | PacketTag.mac t :: _ => some t
  | _ :: rest => findMacTag rest

/-- Takes the first control-message tag out of a tag list: the tag found, if
any, and the tags that stay. -/
def removeCtrlTag : List PacketTag → Option SatControlMsgTag × List PacketTag
  | [] => (none, [])
  | PacketTag.ctrl t :: rest => (some t, rest)
  | x :: rest => ((removeCtrlTag rest).1, x :: (removeCtrlTag rest).2)

/-- The call `packet->PeekPacketTag (macTag)`: the tag when the call answers
true, nothing when it answers false. -/
def Packet.PeekPacketTag (p : Packet) : Option SatMacTag :=
  findMacTag p.m_packetTagList

/-- The call `packet->RemovePacketTag (ctrlTag)`: the tag when the call answers
true, and the packet after the call. -/
def Packet.RemovePacketTag (p : Packet) : Option SatControlMsgTag × Packet :=
  ((removeCtrlTag p.m_packetTagList).1,
    { p with m_packetTagList := (removeCtrlTag p.m_packetTagList).2 })

/-- A call that leaves the MAC. -/
inductive Effect (D : Type) where
  /-- The trace source `m_snifferTrace (packet)`. -/
  | snifferTrace (packet : Packet)
  /-- The trace source `m_promiscSnifferTrace (packet)`. -/
  | promiscSnifferTrace (packet : Packet)
  /-- The trace source `m_macRxTrace (packet)`. -/
  | macRxTrace (packet : Packet)
  /-- The call `Simulator::Schedule (time, &SatUtMac::TransmitTime, this, carrierId, timeSlotConf)`. -/
  | SimulatorSchedule (time : Time) (carrierId : Nat) (timeSlotConf : SatTimeSlotConf D)
  /-- The call `m_txOpportunityCallback (txBytes, address)`. -/
  | txOpportunityCallback (txBytes : Nat) (address : Mac48Address)
  /-- The call `SendPacket (p, carrierId, duration)`. -/
  | SendPacket (p : Packet) (carrierId : Nat) (duration : Time)
  /-- The call `m_rxCallback (packet, destAddress)`. -/
  | rxCallback (packet : Packet) (destAddress : Mac48Address)
  deriving DecidableEq, Repr

/-- How a member function ends: the calls it made, in order, and the message of
the `NS_FATAL_ERROR` that stopped it, if one did. -/
structure Outcome (D : Type) where
  trace : List (Effect D)
  fatal : Option String
  deriving DecidableEq, Repr

/-- Runs `second` after `first` unless `first` ended in a fatal error. -/
def Outcome.andThen {D : Type} (first second : Outcome D) : Outcome D :=
  match first.fatal with
  | some msg => ⟨first.trace, some msg⟩
  | none => ⟨first.trace ++ second.trace, second.fatal⟩

/-- The time handed to the simulator, for a `Simulator::Schedule` call. -/
def Effect.scheduleTime? {D : Type} : Effect D → Option Time
  | Effect.SimulatorSchedule t _ _ => some t
  | _ => none

/-- The timeslot configuration bound to the event, for a `Simulator::Schedule`
call. -/
def Effect.scheduleTimeSlotConf? {D : Type} : Effect D → Option (SatTimeSlotConf D)
  | Effect.SimulatorSchedule _ _ conf => some conf
  | _ => none

/-- Whether the call is a `Simulator::Schedule`. -/
def Effect.isSchedule {D : Type} : Effect D → Bool
  | Effect.SimulatorSchedule _ _ _ => true
  | _ => false

/-- Whether the call is a `SendPacket`. -/
def Effect.isSend {D : Type} : Effect D → Bool
  | Effect.SendPacket _ _ _ => true
  | _ => false

/-- Whether the call is the receive callback of the upper layer. -/
def Effect.isRxCallback {D : Type} : Effect D → Bool
  | Effect.rxCallback _ _ => true
  | _ => false

/-- Whether the call is the callback that asks the upper layer for a packet. -/
def Effect.isTxOpportunity {D : Type} : Effect D → Bool
  | Effect.txOpportunityCallback _ _ => true
  | _ => false

/-! ## The terminal MAC -/

/-- The members of `SatUtMac` that its code reads: the address of the base
class `SatMac`, the superframe sequence, the constant rate assignment, the
timing-advance callback (absent until one is set) and the callback that asks
the upper layer for a packet (nothing for a null pointer). -/
structure SatUtMac (D : Type) where
  m_macAddress : Mac48Address
  m_superframeSeq : SatSuperframeSeq D
  m_cra : D
  m_timingAdvanceCb : Option (Unit → Time)
  m_txOpportunityCallback : Nat → Mac48Address → Option Packet

namespace SatUtMac

variable {D : Type}

/-- `SatUtMac::SetTimingAdvanceCallback`. -/
def SetTimingAdvanceCallback (self : SatUtMac D) (cb : Unit → Time) : SatUtMac D :=
  { self with m_timingAdvanceCb := some cb }

/-- `SatUtMac::ScheduleTxOpportunity`: one call of `Simulator::Schedule`. -/
def ScheduleTxOpportunity (transmitTime : Time) (carrierId : Nat)
    (timeSlotConf : SatTimeSlotConf D) : List (Effect D) :=
  [Effect.SimulatorSchedule transmitTime carrierId timeSlotConf]

/-- The body of the loop of `ScheduleTimeSlots` for the grant `it`. -/
def scheduleSlot (ops : DoubleOps D) (self : SatUtMac D) (startTime : Time)
    (it : TbtpTimeSlotInfo) : List (Effect D) :=
  let superframeConf := self.m_superframeSeq.GetSuperframeConf 0
  let frameConf := superframeConf.GetFrameConf it.GetFrameId
  let timeSlotConf := frameConf.GetTimeSlotConf it.GetTimeSlotId
  let slotStartTime := startTime + ops.Seconds timeSlotConf.GetStartTime_s
  let carrierId := self.m_superframeSeq.GetCarrierId 0 it.GetFrameId timeSlotConf.GetCarrierId
  ScheduleTxOpportunity slotStartTime carrierId timeSlotConf

/-- The loop of `ScheduleTimeSlots` over the grants, first to last. -/
def scheduleLoop (ops : DoubleOps D) (self : SatUtMac D) (startTime : Time) :
    List TbtpTimeSlotInfo → List (Effect D)
  | [] => []
  | it :: rest => scheduleSlot ops self startTime it ++ scheduleLoop ops self startTime rest

/-- `SatUtMac::ScheduleTimeSlots`. -/
def ScheduleTimeSlots (ops : DoubleOps D) (self : SatUtMac D) (tbtp : SatTbtpHeader) :
    Outcome D :=
  let slots := tbtp.GetTimeslots self.m_macAddress
  if !slots.isEmpty then
    let superframeDuration := self.m_superframeSeq.GetDuration_s tbtp.GetSuperframeId
    let startTime := ops.Seconds (ops.mulCounter superframeDuration tbtp.GetSuperframeCounter)
    ⟨scheduleLoop ops self startTime slots, none⟩
  else
    ⟨[], none⟩

/-- `SatUtMac::TransmitTime`. -/
def TransmitTime (ops : DoubleOps D) (self : SatUtMac D) (carrierId : Nat)
    (timeSlotConf : SatTimeSlotConf D) : Outcome D :=
  let txBytes := 123
  let asked := Effect.txOpportunityCallback txBytes self.m_macAddress
  match self.m_txOpportunityCallback txBytes self.m_macAddress with
  | some p =>
    let duration := ops.FromDouble timeSlotConf.GetDuration_s - 1
    ⟨[asked, Effect.SendPacket p carrierId duration], none⟩
  | none => ⟨[asked], none⟩

/-- `SatUtMac::ReceiveSignalingPacket`. The call `packet->RemoveHeader (tbtp)`
is `deserialize` on the bytes of the packet: the header read and the number of
bytes taken. -/
def ReceiveSignalingPacket (ops : DoubleOps D) (deserialize : List Nat → SatTbtpHeader × Nat)
    (self : SatUtMac D) (packet : Packet) (cType : SatControlMsgType_t) : Outcome D :=
  match cType with
  | SatControlMsgType_t.SAT_TBTP_CTRL_MSG =>
    let removed := deserialize packet.m_buffer
    if removed.2 > 0 then
      ScheduleTimeSlots ops self removed.1
    else
      ⟨[], none⟩
  | SatControlMsgType_t.SAT_RA_CTRL_MSG =>
    ⟨[], some "SatUtMac received a non-supported control packet!"⟩
  | SatControlMsgType_t.SAT_CR_CTRL_MSG =>
    ⟨[], some "SatUtMac received a non-supported control packet!"⟩
  | _ =>
    ⟨[], some "SatUtMac received a non-supported control packet!"⟩

/-- `SatUtMac::Receive`. -/
def Receive (ops : DoubleOps D) (deserialize : List Nat → SatTbtpHeader × Nat)
    (self : SatUtMac D) (packet : Packet) : Outcome D :=
  let hooks : Outcome D :=
    ⟨[Effect.snifferTrace packet, Effect.promiscSnifferTrace packet,
      Effect.macRxTrace packet], none⟩
  match packet.PeekPacketTag with
  | none => hooks.andThen ⟨[], some "MAC tag was not found from the packet!"⟩
  | some macTag =>
    let destAddress := macTag.GetDestAddress
    if destAddress == self.m_macAddress || destAddress.IsBroadcast then
      match packet.RemovePacketTag with
      | (some ctrlTag, packet1) =>
        let cType := ctrlTag.GetMsgType
        if cType != SatControlMsgType_t.SAT_NON_CTRL_MSG then
          let packet2 := packet1.RemovePacketTag.2
          hooks.andThen (ReceiveSignalingPacket ops deserialize self packet2 cType)
        else
          hooks.andThen ⟨[], some "A control message received with not valid msg type!"⟩
      | (none, packet1) =>
        hooks.andThen ⟨[Effect.rxCallback packet1 destAddress], none⟩
    else
      hooks.andThen ⟨[], some "UT received a packet not intended for it"⟩

/-- The calls of the three trace sources with which `Receive` starts. -/
def hooksTrace (packet : Packet) : List (Effect D) :=
  [Effect.snifferTrace packet, Effect.promiscSnifferTrace packet, Effect.macRxTrace packet]

/-- The run ended in a fatal error. -/
def endsFatal (o : Outcome D) : Prop := o.fatal ≠ none

/-- The run of `Receive` on `packet` ended normally after one call of the
receive callback of the upper layer with that packet, and made no other call
after the trace sources. -/
def endsForwarded (o : Outcome D) (packet : Packet) : Prop :=
  o.fatal = none ∧ ∃ destAddress, o.trace = hooksTrace packet ++ [Effect.rxCallback packet destAddress]

/-- The run of `Receive` on `packet` ended normally in the control handler: after
the trace sources it is a run of `ReceiveSignalingPacket`, for a type other than
`SAT_NON_CTRL_MSG`, on the packet without its control-message tag, and the
receive callback of the upper layer was not called. -/
def endsControlHandled (ops : DoubleOps D) (deserialize : List Nat → SatTbtpHeader × Nat)
    (self : SatUtMac D) (o : Outcome D) (packet : Packet) : Prop :=
  o.fatal = none ∧ o.trace.filter Effect.isRxCallback = [] ∧
    ∃ cType, cType ≠ SatControlMsgType_t.SAT_NON_CTRL_MSG ∧
      o = Outcome.andThen ⟨hooksTrace packet, none⟩
        (ReceiveSignalingPacket ops deserialize self packet.RemovePacketTag.2.RemovePacketTag.2
          cType)

end SatUtMac

/-! ## The simulator -/

/-- An event in the queue of the simulator: the time stamp at which it fires,
its serial number, and the arguments bound to `SatUtMac::TransmitTime`. -/
structure SimEvent (D : Type) where
  m_ts : Time
  m_uid : Nat
  carrierId : Nat
  timeSlotConf : SatTimeSlotConf D
  deriving DecidableEq, Repr

/-- The simulator of ns-3: the current simulated time `Now ()`, the serial
number of the next event and the events that wait. -/
structure Simulator (D : Type) where
  m_currentTs : Time
  m_uid : Nat
  m_events : List (SimEvent D)
  deriving DecidableEq, Repr

namespace Simulator

variable {D : Type}

/-- `Simulator::Now`. -/
def Now (sim : Simulator D) : Time := sim.m_currentTs

/-- `Simulator::Schedule (delay, ...)` of the ns-3 core, which is a library
outside these sources: its first argument is a delay, and the event expires at
the current simulated time plus that delay (`DefaultSimulatorImpl::Schedule`
computes `tAbsolute = delay + TimeStep (m_currentTs)`). -/
def Schedule (sim : Simulator D) (delay : Time) (carrierId : Nat)
    (timeSlotConf : SatTimeSlotConf D) : Simulator D :=
  { sim with
    m_uid := sim.m_uid + 1
    m_events := sim.m_events ++ [⟨sim.Now + delay, sim.m_uid, carrierId, timeSlotConf⟩] }

/-- Performs the `Simulator::Schedule` calls of a trace, in order. -/
def perform (sim : Simulator D) : List (Effect D) → Simulator D
  | [] => sim
  | Effect.SimulatorSchedule t c conf :: rest => perform (sim.Schedule t c conf) rest
  | _ :: rest => perform sim rest

end Simulator

/-! ## A small scenario -/

/-- A superframe sequence of two superframes. Superframe 0 lasts 2.0 s and its
slot `t` starts `(t + 1) / 10` s into the frame on carrier `t`; superframe 1
lasts 4.0 s and its slot `t` starts `(t + 1) / 5` s into the frame on carrier
`t + 1`. Every slot lasts 0.01 s. The global carrier id of
(superframe, frame, carrier) is `100 * superframe + 10 * frame + carrier`. -/
def demoSeq : SatSuperframeSeq ℚ where
  GetDuration_s := fun s => if s = 0 then 2 else 4
  GetSuperframeConf := fun s =>
    ⟨fun _ => ⟨fun t =>
      if s = 0 then ⟨((t : ℚ) + 1) / 10, 1 / 100, t⟩ else ⟨((t : ℚ) + 1) / 5, 1 / 100, t + 1⟩⟩⟩
  GetCarrierId := fun s f c => 100 * s + 10 * f + c

/-- The address of the terminal of the scenario. -/
def demoAddress : Mac48Address := ⟨1⟩

/-- The address of another terminal. -/
def otherAddress : Mac48Address := ⟨2⟩

/-- A packet of three bytes without tags, as the upper layer hands it down. -/
def demoPayload : Packet := ⟨[], [7, 7, 7]⟩

/-- The terminal of the scenario; its upper layer has a packet ready when
`ready` holds. -/
def demoMac (ready : Bool) : SatUtMac ℚ where
  m_macAddress := demoAddress
  m_superframeSeq := demoSeq
  m_cra := 128
  m_timingAdvanceCb := none
  m_txOpportunityCallback := fun _ _ => if ready then some demoPayload else none

/-- A TBTP for superframe `superframeId` with counter `counter` that grants
`slots` to the terminal of the scenario and nothing to anyone else. -/
def demoTbtp (superframeId counter : Nat) (slots : List TbtpTimeSlotInfo) : SatTbtpHeader where
  GetSuperframeId := superframeId
  GetSuperframeCounter := counter
  GetTimeslots := fun a => if a = demoAddress then slots else []

/-- A slot of the scenario that lasts exactly one tick (one nanosecond). -/
def oneTickSlot : SatTimeSlotConf ℚ := ⟨0, 1 / 1000000000, 0⟩

/-- A slot of the scenario of duration zero. -/
def emptySlot : SatTimeSlotConf ℚ := ⟨0, 0, 0⟩

/-- A header decoder for the scenario: any bytes decode to the TBTP of
superframe 0 with counter 3 and the grant (frame 0, slot 0), and all bytes are
taken. -/
def demoDeserialize (bytes : List Nat) : SatTbtpHeader × Nat :=
  (demoTbtp 0 3 [⟨0, 0⟩], bytes.length)

/-- A burst-time-plan packet that lacks the addressing tag. -/
def untaggedPacket : Packet :=
  ⟨[PacketTag.other 9, PacketTag.ctrl ⟨SatControlMsgType_t.SAT_TBTP_CTRL_MSG⟩], [1, 2, 3]⟩

/-- A burst-time-plan packet addressed to another terminal. -/
def strayPacket : Packet :=
  ⟨[PacketTag.ctrl ⟨SatControlMsgType_t.SAT_TBTP_CTRL_MSG⟩,
    PacketTag.mac ⟨otherAddress, demoAddress⟩, PacketTag.other 9], [1, 2, 3]⟩

/-- A data packet for the terminal of the scenario: an addressing tag and a tag
of another kind, no control-message tag. -/
def dataPacket : Packet :=
  ⟨[PacketTag.other 9, PacketTag.mac ⟨demoAddress, otherAddress⟩], [4, 5, 6]⟩

/-- A burst-time-plan packet sent to the broadcast address. -/
def tbtpPacket : Packet :=
  ⟨[PacketTag.mac ⟨Mac48Address.GetBroadcast, otherAddress⟩,
    PacketTag.ctrl ⟨SatControlMsgType_t.SAT_TBTP_CTRL_MSG⟩], [1, 2, 3]⟩

/-- A packet for the terminal of the scenario whose control-message tag says
"no control message". -/
def nonCtrlPacket : Packet :=
  ⟨[PacketTag.mac ⟨demoAddress, otherAddress⟩,
    PacketTag.ctrl ⟨SatControlMsgType_t.SAT_NON_CTRL_MSG⟩], [1, 2, 3]⟩

/-- A header decoder that reads nothing: 0 bytes are taken. -/
def emptyDeserialize (_bytes : List Nat) : SatTbtpHeader × Nat :=
  (demoTbtp 0 3 [⟨0, 0⟩], 0)

/-! ## Receiver carrier configuration (`src/model/satellite-phy-rx-carrier-conf.cc`) -/

/-- The channel types of the attribute `ChannelType`. -/
inductive ChannelType_t where
  | UNKNOWN_CH
  | FORWARD_FEEDER_CH
  | FORWARD_USER_CH
  | RETURN_FEEDER_CH
  | RETURN_USER_CH
  deriving DecidableEq, Repr

/-- `SatPhyRxCarrierConf::RxMode`. -/
inductive RxMode where
  | TRANSPARENT
  | NORMAL
  deriving DecidableEq, Repr

/-- `SatPhyRxCarrierConf::ErrorModel`. -/
inductive ErrorModel where
  | EM_NONE
  | EM_CONSTANT
  | EM_AVI
  deriving DecidableEq, Repr

/-- `SatPhyRxCarrierConf::InterferenceModel`. -/
inductive InterferenceModel where
  | IF_PER_PACKET
  | IF_TRACE
  | IF_CONSTANT
  deriving DecidableEq, Repr

/-- The members of `SatPhyRxCarrierConf` that the implementation file reads or
writes. `m_linkResults` is the number of the object the pointer refers to. -/
structure SatPhyRxCarrierConf (D : Type) where
  m_ifModel : InterferenceModel
  m_errorModel : ErrorModel
  m_rxTemperature_K : D
  m_rxOtherSysNoise_W : D
  m_rxMode : RxMode
  m_carrierCount : Nat
  m_carrierBandwidthConverter : ChannelType_t → Nat → D
  m_channelType : ChannelType_t
  m_linkResults : Option Nat

/-- The values that the creator of an object supplies for its attributes
(`AttributeConstructionList`), for the three attributes of
`SatPhyRxCarrierConf::GetTypeId`. -/
structure AttributeConstructionList (D : Type) where
  ChannelType : Option ChannelType_t
  CarrierBandwidhtConverter : Option (ChannelType_t → Nat → D)
  CarrierCount : Option Nat

namespace SatPhyRxCarrierConf

variable {D : Type}

/-- The constructor `SatPhyRxCarrierConf ()`. It assigns two members; the
others keep what the storage held, which is `raw`. -/
def new (raw : SatPhyRxCarrierConf D) : SatPhyRxCarrierConf D :=
  { raw with m_errorModel := ErrorModel.EM_CONSTANT, m_ifModel := InterferenceModel.IF_CONSTANT }

/-- The constructor with five arguments. `DbToLinear` and `DbWToW` are the
conversions of `SatUtils`; the members it does not assign keep what the storage
held, which is `raw`. -/
def newWith (DbToLinear DbWToW : D → D) (raw : SatPhyRxCarrierConf D)
    (rxTemperature_dBK rxOtherSysNoise_dBW : D) (errorModel : ErrorModel)
    (ifModel : InterferenceModel) (rxMode : RxMode) : SatPhyRxCarrierConf D :=
  { raw with
    m_errorModel := errorModel
    m_ifModel := ifModel
    m_rxTemperature_K := DbToLinear rxTemperature_dBK
    m_rxMode := rxMode
    m_rxOtherSysNoise_W := DbWToW rxOtherSysNoise_dBW }

/-- The initial value `UintegerValue (1)` of the attribute `CarrierCount`. -/
def CarrierCountInitialValue : Nat := 1

/-- The checker `MakeUintegerChecker<uint32_t> (1)` of the attribute
`CarrierCount`: at least 1 and at most the largest `uint32_t`. -/
def CarrierCountChecker (value : Nat) : Bool :=
  decide (1 ≤ value) && decide (value ≤ 4294967295)

/-- The checker of the attribute `ChannelType`, `MakeEnumChecker` over the four
channel types it lists. -/
def ChannelTypeChecker (value : ChannelType_t) : Bool :=
  value == ChannelType_t.FORWARD_FEEDER_CH || value == ChannelType_t.FORWARD_USER_CH ||
    value == ChannelType_t.RETURN_FEEDER_CH || value == ChannelType_t.RETURN_USER_CH

/-- `ObjectBase::DoSet` of the ns-3 core for the attribute `CarrierCount`: the
value is stored in `m_carrierCount` when the checker accepts it; the answer
tells whether it was stored. -/
def DoSetCarrierCount (self : SatPhyRxCarrierConf D) (value : Nat) :
    Bool × SatPhyRxCarrierConf D :=
  if CarrierCountChecker value then (true, { self with m_carrierCount := value })
  else (false, self)

/-- `ObjectBase::DoSet` for the attribute `ChannelType`. -/
def DoSetChannelType (self : SatPhyRxCarrierConf D) (value : ChannelType_t) :
    Bool × SatPhyRxCarrierConf D :=
  if ChannelTypeChecker value then (true, { self with m_channelType := value })
  else (false, self)

/-- The round of `ObjectBase::ConstructSelf` for the attribute `ChannelType`: a
supplied value is stored when the checker accepts it, and otherwise the initial
value `SatChannel::UNKNOWN_CH` is offered to the same checker. -/
def constructChannelType (self : SatPhyRxCarrierConf D) (supplied : Option ChannelType_t) :
    SatPhyRxCarrierConf D :=
  match supplied with
  | some value =>
    if (DoSetChannelType self value).1 then (DoSetChannelType self value).2
    else (DoSetChannelType self ChannelType_t.UNKNOWN_CH).2
  | none => (DoSetChannelType self ChannelType_t.UNKNOWN_CH).2

/-- The round of `ObjectBase::ConstructSelf` for the attribute
`CarrierBandwidhtConverter`: its checker accepts every callback, and its initial
value is a null callback, which leaves the member as it is. -/
def constructConverter (self : SatPhyRxCarrierConf D)
    (supplied : Option (ChannelType_t → Nat → D)) : SatPhyRxCarrierConf D :=
  match supplied with
  | some value => { self with m_carrierBandwidthConverter := value }
  | none => self

/-- The round of `ObjectBase::ConstructSelf` for the attribute `CarrierCount`:
a supplied value is stored when the checker accepts it, and otherwise the
initial value is offered to the same checker. -/
def constructCarrierCount (self : SatPhyRxCarrierConf D) (supplied : Option Nat) :
    SatPhyRxCarrierConf D :=
  match supplied with
  | some value =>
    if (DoSetCarrierCount self value).1 then (DoSetCarrierCount self value).2
    else (DoSetCarrierCount self CarrierCountInitialValue).2
  | none => (DoSetCarrierCount self CarrierCountInitialValue).2

/-- `ObjectBase::ConstructSelf` of the ns-3 core, which `CreateObject` runs
after the constructor: one round per attribute of `GetTypeId`, in the order in
which they are added. -/
def ConstructSelf (self : SatPhyRxCarrierConf D) (attributes : AttributeConstructionList D) :
    SatPhyRxCarrierConf D :=
  constructCarrierCount
    (constructConverter (constructChannelType self attributes.ChannelType)
      attributes.CarrierBandwidhtConverter)
    attributes.CarrierCount

/-- `ObjectBase::SetAttribute ("CarrierCount", UintegerValue (value))` of the
ns-3 core: a value that the checker refuses is a fatal error. -/
def SetAttributeCarrierCount (self : SatPhyRxCarrierConf D) (value : Nat) :
    Except String (SatPhyRxCarrierConf D) :=
  if (DoSetCarrierCount self value).1 then Except.ok (DoSetCarrierCount self value).2
  else Except.error "Attribute name=CarrierCount could not be set for this object"

/-- `SatPhyRxCarrierConf::SetLinkResults`. -/
def SetLinkResults (self : SatPhyRxCarrierConf D) (linkResults : Option Nat) :
    SatPhyRxCarrierConf D :=
  { self with m_linkResults := linkResults }

/-- `SatPhyRxCarrierConf::GetCarrierCount`. -/
def GetCarrierCount (self : SatPhyRxCarrierConf D) : Nat := self.m_carrierCount

/-- `SatPhyRxCarrierConf::GetErrorModel`. -/
def GetErrorModel (self : SatPhyRxCarrierConf D) : ErrorModel := self.m_errorModel

/-- `SatPhyRxCarrierConf::GetInterferenceModel`. -/
def GetInterferenceModel (self : SatPhyRxCarrierConf D) : InterferenceModel := self.m_ifModel

/-- `SatPhyRxCarrierConf::GetLinkResults`. -/
def GetLinkResults (self : SatPhyRxCarrierConf D) : Option Nat := self.m_linkResults

/-- `SatPhyRxCarrierConf::GetCarrierBandwidth_Hz (carrierId)`, the getter of the
implementation file. -/
def GetCarrierBandwidth_Hz (self : SatPhyRxCarrierConf D) (carrierId : Nat) : D :=
  self.m_carrierBandwidthConverter self.m_channelType carrierId

/-- Modelled from the spec: the body of
`SatPhyRxCarrierConf::GetCarrierBandwidthHz (carrierId, bandwidthType)`. The
header declares this getter and the callback type `CarrierBandwidthConverter`
with three parameters (channel type, carrier id, bandwidth type); the
implementation file holds only the earlier `GetCarrierBandwidth_Hz (carrierId)`.
The spec: the getter "delegates to the externally supplied carrier→bandwidth
conversion function, passing the channel type fixed at construction". The
conversion function of the type of the header is `converter`, and `B` is the
type `SatEnums::CarrierBandwidthType_t`. -/
def GetCarrierBandwidthHz {B : Type} (converter : ChannelType_t → Nat → B → D)
    (self : SatPhyRxCarrierConf D) (carrierId : Nat) (bandwidthType : B) : D :=
  converter self.m_channelType carrierId bandwidthType

/-- `SatPhyRxCarrierConf::GetRxTemperature_K`. -/
def GetRxTemperature_K (self : SatPhyRxCarrierConf D) : D := self.m_rxTemperature_K

/-- `SatPhyRxCarrierConf::GetRxOtherSystemNoise_W`. -/
def GetRxOtherSystemNoise_W (self : SatPhyRxCarrierConf D) : D := self.m_rxOtherSysNoise_W

/-- `SatPhyRxCarrierConf::GetRxMode`. -/
def GetRxMode (self : SatPhyRxCarrierConf D) : RxMode := self.m_rxMode

end SatPhyRxCarrierConf

/-- Storage for a carrier configuration of the scenario before a constructor
runs: the carrier count in it is 0. -/
def rawCarrierConf : SatPhyRxCarrierConf ℚ where
  m_ifModel := InterferenceModel.IF_TRACE
  m_errorModel := ErrorModel.EM_NONE
  m_rxTemperature_K := 0
  m_rxOtherSysNoise_W := 0
  m_rxMode := RxMode.TRANSPARENT
  m_carrierCount := 0
  m_carrierBandwidthConverter := fun _ carrierId => 1000 * ((carrierId : ℚ) + 1)
  m_channelType := ChannelType_t.RETURN_USER_CH
  m_linkResults := none

/-! ## Markov channel-state configuration (`src/model/satellite-markov-conf.h`) -/

/-- The member `m_markovElevations` of `SatMarkovConf`, a
`std::map<double, uint32_t>` from elevation to set id, as the list of its
entries. Elevations are exact rationals; the look-up only compares them. -/
structure SatMarkovConf where
  m_markovElevations : List (ℚ × Nat)

namespace SatMarkovConf

/-- The entry with the greatest key that is not above `elevation`, if there is
one. -/
def bucketOf (elevation : ℚ) : List (ℚ × Nat) → Option (ℚ × Nat)
  | [] => none
  | entry :: rest =>
    match bucketOf elevation rest with
    | some best =>
      if entry.1 ≤ elevation ∧ best.1 < entry.1 then some entry else some best
    | none => if entry.1 ≤ elevation then some entry else none

/-- Modelled from the spec: the body of `SatMarkovConf::GetProbabilitySetID`,
of which the sources hold the declaration only. The spec: the operation "looks
up which probability-set bucket an elevation angle falls into using the
elevation→set-id ordered mapping (buckets keyed by elevation threshold; exact
lookup and boundary tie-break policy must be total over the physically valid
elevation range 0–90°; fails if elevation falls outside the configured
buckets)", and the buckets "partition into disjoint half-open angular ranges".
So the bucket of a key runs from that key up to the next key, the last one up
to 90 degrees, and the result is nothing (a failure) for an elevation below 0,
above 90 or below the least key. -/
def GetProbabilitySetID (self : SatMarkovConf) (elevation : ℚ) : Option Nat :=
  if elevation < 0 ∨ 90 < elevation then none
  else (bucketOf elevation self.m_markovElevations).map Prod.snd

end SatMarkovConf

/-- The buckets `{0: set 0, 30: set 1, 60: set 2}`. -/
def demoMarkovConf : SatMarkovConf := ⟨[(0, 0), (30, 1), (60, 2)]⟩

/-! ## Statistics helper (`src/stats/satellite-stats-helper.cc`) -/

/-- `SatStatsHelper::IdentifierType_t`, by the enumerators that
`GetIdentiferTypeName` lists. -/
inductive IdentifierType_t where
  | IDENTIFIER_GLOBAL
  | IDENTIFIER_GW
  | IDENTIFIER_BEAM
  | IDENTIFIER_UT
  | IDENTIFIER_UT_USER
  deriving DecidableEq, Repr

/-- `SatStatsHelper::OutputType_t`, by the enumerators that `GetOutputTypeName`
lists. -/
inductive OutputType_t where
  | OUTPUT_NONE
  | OUTPUT_SCALAR_FILE
  | OUTPUT_SCATTER_FILE
  | OUTPUT_HISTOGRAM_FILE
  | OUTPUT_PDF_FILE
  | OUTPUT_CDF_FILE
  | OUTPUT_SCALAR_PLOT
  | OUTPUT_SCATTER_PLOT
  | OUTPUT_HISTOGRAM_PLOT
  | OUTPUT_PDF_PLOT
  | OUTPUT_CDF_PLOT
  deriving DecidableEq, Repr

/-- What the statistics helper asks of the `SatHelper` it points to:
`GetBeamHelper ()->GetGwId (beamId)`. -/
structure SatHelper where
  GetGwId : Nat → Nat

/-- The members of `SatStatsHelper`; a `std::string` is the list of its
characters. -/
structure SatStatsHelper where
  m_name : List Char
  m_identifierType : IdentifierType_t
  m_outputType : OutputType_t
  m_isInstalled : Bool
  m_satHelper : SatHelper

/-- The search behind `std::string::find_first_of`: the first index, counted
from `index` for the characters that are left, that is at least `pos` and holds
one of the characters of `accept`. -/
def findFirstOfFrom (accept : List Char) (pos : Nat) : List Char → Nat → Option Nat
  | [], _ => none
  | c :: rest, index =>
    if pos ≤ index ∧ c ∈ accept then some index
    else findFirstOfFrom accept pos rest (index + 1)

/-- The call `str.find_first_of (s, pos, n)` of `std::string`: the first index
at or after `pos` of a character of `str` that is among the first `n`
characters of `s`; nothing stands for `npos`. -/
def find_first_of (str : List Char) (s : List Char) (pos : Nat) (n : Nat) : Option Nat :=
  findFirstOfFrom (s.take n) pos str 0

namespace SatStatsHelper

/-- The constructor `SatStatsHelper (satHelper)`. -/
def new (satHelper : SatHelper) : SatStatsHelper where
  m_name := ['s', 't', 'a', 't']
  m_identifierType := IdentifierType_t.IDENTIFIER_GLOBAL
  m_outputType := OutputType_t.OUTPUT_SCATTER_FILE
  m_isInstalled := false
  m_satHelper := satHelper

/-- The loop of `SetName`, from the test `pos != std::string::npos` on: the
body `name[pos] = '_'` and then the step
`pos = name.find_first_of (" /", pos + 1, 1)`. Each unit of `fuel` pays for one
round; the result is nothing when the fuel runs out before the loop ends. -/
def setNameLoop : Nat → List Char → Option Nat → Option (List Char)
  | _, name, none => some name
  | 0, _, some _ => none
  | fuel + 1, name, some pos =>
    setNameLoop fuel (name.set pos '_')
      (find_first_of (name.set pos '_') [' ', '/'] (pos + 1) 1)

/-- `SatStatsHelper::SetName`. The loop starts at `name.find_first_of (" /")`,
which looks for both characters of the literal from index 0, and gets one round
more than the name has characters, which is always enough (see
`setNameLoop_isSome`). -/
def SetName (self : SatStatsHelper) (name : List Char) : SatStatsHelper :=
  match setNameLoop (name.length + 1) name (find_first_of name [' ', '/'] 0 2) with
  | some converted => { self with m_name := converted }
  | none => self

/-- `SatStatsHelper::GetName`. -/
def GetName (self : SatStatsHelper) : List Char := self.m_name

/-- `SatStatsHelper::Install`: the helper after the call and the number of
calls of `DoInstall` it made. `DoInstall` is the virtual method that a child
class implements; it is counted as a call and leaves the members of the helper
as they are. -/
def Install (self : SatStatsHelper) : SatStatsHelper × Nat :=
  if self.m_outputType = OutputType_t.OUTPUT_NONE then
    (self, 0)
  else
    ({ self with m_isInstalled := true }, 1)

/-- `SatStatsHelper::SetIdentifierType`. -/
def SetIdentifierType (self : SatStatsHelper) (identifierType : IdentifierType_t) :
    SatStatsHelper :=
  if self.m_isInstalled && (self.m_identifierType != identifierType) then
    self
  else
    { self with m_identifierType := identifierType }

/-- `SatStatsHelper::GetIdentifierType`. -/
def GetIdentifierType (self : SatStatsHelper) : IdentifierType_t := self.m_identifierType

/-- `SatStatsHelper::SetOutputType`. -/
def SetOutputType (self : SatStatsHelper) (outputType : OutputType_t) : SatStatsHelper :=
  if self.m_isInstalled && (self.m_outputType != outputType) then
    self
  else
    { self with m_outputType := outputType }

/-- `SatStatsHelper::GetOutputType`. -/
def GetOutputType (self : SatStatsHelper) : OutputType_t := self.m_outputType

/-- `SatStatsHelper::GetSatHelper`. -/
def GetSatHelper (self : SatStatsHelper) : SatHelper := self.m_satHelper

/-- `SatStatsHelper::GetIdentifierForBeam`, with assertions enabled: a failed
`NS_ASSERT_MSG` ends the call with an error. -/
def GetIdentifierForBeam (self : SatStatsHelper) (beamId : Nat) : Except String Nat :=
  let ret := 0
  match self.m_identifierType with
  | IdentifierType_t.IDENTIFIER_GLOBAL => Except.ok 0
  | IdentifierType_t.IDENTIFIER_GW =>
    let gwId := self.m_satHelper.GetGwId beamId
    if gwId != 0 then Except.ok gwId
    else Except.error "Beam is not attached to any GW"
  | IdentifierType_t.IDENTIFIER_BEAM => Except.ok beamId
  | _ => Except.ok ret

/-- A call of one of the four public methods that change a helper. -/
inductive Call where
  | Install
  | SetName (name : List Char)
  | SetIdentifierType (identifierType : IdentifierType_t)
  | SetOutputType (outputType : OutputType_t)

/-- The helper after one call. -/
def step (self : SatStatsHelper) : Call → SatStatsHelper
  | Call.Install => self.Install.1
  | Call.SetName name => self.SetName name
  | Call.SetIdentifierType identifierType => self.SetIdentifierType identifierType
  | Call.SetOutputType outputType => self.SetOutputType outputType

/-- The helper after a sequence of calls, first to last. -/
def run (self : SatStatsHelper) : List Call → SatStatsHelper
  | [] => self
  | call :: rest => run (self.step call) rest

end SatStatsHelper

/-- The topology of the scenario: beam `b` is served by gateway `b / 4 + 1`. -/
def demoSatHelper : SatHelper := ⟨fun beamId => beamId / 4 + 1⟩

/-! ## Scheduling of the granted time slots -/

namespace SatUtMac

variable {D : Type}

/-- The loop of `ScheduleTimeSlots` makes one `Simulator::Schedule` call per
grant, in the order of the grants. -/
theorem scheduleLoop_eq_map (ops : DoubleOps D) (self : SatUtMac D) (startTime : Time)
    (slots : List TbtpTimeSlotInfo) :
    scheduleLoop ops self startTime slots =
      slots.map (fun it =>
        Effect.SimulatorSchedule
          (startTime + ops.Seconds
            (((self.m_superframeSeq.GetSuperframeConf 0).GetFrameConf
              it.GetFrameId).GetTimeSlotConf it.GetTimeSlotId).GetStartTime_s)
          (self.m_superframeSeq.GetCarrierId 0 it.GetFrameId
            (((self.m_superframeSeq.GetSuperframeConf 0).GetFrameConf
              it.GetFrameId).GetTimeSlotConf it.GetTimeSlotId).GetCarrierId)
          (((self.m_superframeSeq.GetSuperframeConf 0).GetFrameConf
            it.GetFrameId).GetTimeSlotConf it.GetTimeSlotId)) := by
  induction slots with
  | nil => rfl
  | cons it rest ih =>
    simp only [scheduleLoop, scheduleSlot, ScheduleTxOpportunity, ih, List.map_cons,
      List.singleton_append]

/-- The calls of `ScheduleTimeSlots`, whether or not the terminal has grants. -/
theorem ScheduleTimeSlots_trace (ops : DoubleOps D) (self : SatUtMac D) (tbtp : SatTbtpHeader) :
    (ScheduleTimeSlots ops self tbtp).trace =
      scheduleLoop ops self
        (ops.Seconds (ops.mulCounter (self.m_superframeSeq.GetDuration_s tbtp.GetSuperframeId)
          tbtp.GetSuperframeCounter))
        (tbtp.GetTimeslots self.m_macAddress) := by
  unfold ScheduleTimeSlots
  cases h : tbtp.GetTimeslots self.m_macAddress with
  | nil => simp [scheduleLoop]
  | cons it rest => simp

/-- `ScheduleTimeSlots` has no fatal path. -/
theorem ScheduleTimeSlots_fatal (ops : DoubleOps D) (self : SatUtMac D) (tbtp : SatTbtpHeader) :
    (ScheduleTimeSlots ops self tbtp).fatal = none := by
  cases h : tbtp.GetTimeslots self.m_macAddress <;> simp [ScheduleTimeSlots, h]

/-- C1: for a TBTP with N grants for the address of the terminal,
`ScheduleTimeSlots` makes exactly N calls, all of them `Simulator::Schedule`
calls, and the i-th call carries the timeslot configuration that the frame id
and the timeslot id of the i-th grant name (in superframe configuration 0, the
one the code reads): the order of the grant list is kept. -/
theorem C1_one_event_per_grant_in_order (ops : DoubleOps D) (self : SatUtMac D)
    (tbtp : SatTbtpHeader) :
    (ScheduleTimeSlots ops self tbtp).trace.length
        = (tbtp.GetTimeslots self.m_macAddress).length ∧
      (ScheduleTimeSlots ops self tbtp).trace.all Effect.isSchedule = true ∧
      (ScheduleTimeSlots ops self tbtp).trace.map Effect.scheduleTimeSlotConf?
        = (tbtp.GetTimeslots self.m_macAddress).map (fun it =>
            some (((self.m_superframeSeq.GetSuperframeConf 0).GetFrameConf
              it.GetFrameId).GetTimeSlotConf it.GetTimeSlotId)) := by
  rw [ScheduleTimeSlots_trace, scheduleLoop_eq_map]
  refine ⟨by simp, ?_, ?_⟩
  · simp [List.all_eq_true, Effect.isSchedule]
  · simp [List.map_map, Function.comp_def, Effect.scheduleTimeSlotConf?]

/-- C2: the time that `ScheduleTimeSlots` hands to the simulator for each grant
is `Seconds (superframe duration of the superframe id of the TBTP * superframe
counter) + Seconds (start offset of a slot)`, where the slot is the one that the
frame id and the timeslot id of the grant name in superframe configuration 0,
whatever the superframe id of the TBTP. For a TBTP of superframe 0 that is the
granted slot: with a superframe of 2.0 s, counter 3 and a slot that starts at
0.1 s the time is the tick count of 6.1 s. For a TBTP of superframe 1 of the
scenario (4.0 s, counter 3, granted slot at 0.2 s) the time handed over is the
tick count of 12.1 s, and the duration times the counter plus the offset of the
granted slot is the tick count of 12.2 s. -/
theorem C2_time_handed_to_scheduler (ops : DoubleOps D) (self : SatUtMac D)
    (tbtp : SatTbtpHeader) :
    (ScheduleTimeSlots ops self tbtp).trace.map Effect.scheduleTime?
        = (tbtp.GetTimeslots self.m_macAddress).map (fun it =>
            some (ops.Seconds (ops.mulCounter
                (self.m_superframeSeq.GetDuration_s tbtp.GetSuperframeId)
                tbtp.GetSuperframeCounter)
              + ops.Seconds (((self.m_superframeSeq.GetSuperframeConf 0).GetFrameConf
                  it.GetFrameId).GetTimeSlotConf it.GetTimeSlotId).GetStartTime_s)) ∧
      (demoSeq.GetDuration_s 0 = 2 ∧
        (((demoSeq.GetSuperframeConf 0).GetFrameConf 0).GetTimeSlotConf 0).GetStartTime_s
          = 1 / 10 ∧
        (ScheduleTimeSlots exactOps (demoMac true) (demoTbtp 0 3 [⟨0, 0⟩])).trace.map
          Effect.scheduleTime? = [some (exactOps.Seconds (61 / 10))] ∧
        exactOps.Seconds (61 / 10) = 6100000000) ∧
      (demoSeq.GetDuration_s 1 = 4 ∧
        (((demoSeq.GetSuperframeConf 1).GetFrameConf 0).GetTimeSlotConf 0).GetStartTime_s
          = 1 / 5 ∧
        (ScheduleTimeSlots exactOps (demoMac true) (demoTbtp 1 3 [⟨0, 0⟩])).trace.map
          Effect.scheduleTime? = [some 12100000000] ∧
        exactOps.Seconds (exactOps.mulCounter (demoSeq.GetDuration_s 1) 3)
          + exactOps.Seconds
            (((demoSeq.GetSuperframeConf 1).GetFrameConf 0).GetTimeSlotConf 0).GetStartTime_s
          = 12200000000) := by
  refine ⟨?_, ⟨?_, ?_, ?_, ?_⟩, ?_, ?_, ?_, ?_⟩
  · rw [ScheduleTimeSlots_trace, scheduleLoop_eq_map]
    simp [List.map_map, Function.comp_def, Effect.scheduleTime?]
  · simp [demoSeq]
  · norm_num [demoSeq]
  · rw [ScheduleTimeSlots_trace, scheduleLoop_eq_map]
    norm_num [Effect.scheduleTime?, demoMac, demoTbtp, demoSeq, exactOps]
  · norm_num [exactOps]
  · simp [demoSeq]
  · norm_num [demoSeq]
  · rw [ScheduleTimeSlots_trace, scheduleLoop_eq_map]
    norm_num [Effect.scheduleTime?, demoMac, demoTbtp, demoSeq, exactOps]
  · norm_num [demoSeq, exactOps]

/-- C3: when the TBTP has no grant for the address of the terminal,
`ScheduleTimeSlots` makes no call at all, so it schedules no transmission
event, and it returns normally. -/
theorem C3_no_grant_no_event (ops : DoubleOps D) (self : SatUtMac D) (tbtp : SatTbtpHeader)
    (hEmpty : tbtp.GetTimeslots self.m_macAddress = []) :
    (ScheduleTimeSlots ops self tbtp).trace = [] ∧
      (ScheduleTimeSlots ops self tbtp).fatal = none := by
  refine ⟨?_, ScheduleTimeSlots_fatal ops self tbtp⟩
  rw [ScheduleTimeSlots_trace, hEmpty]
  rfl

/-- A TBTP whose two grants are for another terminal schedules nothing at the
terminal of the scenario. -/
theorem C3_no_grant_no_event_witness :
    ({ demoTbtp 0 3 [] with
        GetTimeslots := fun a => if a = otherAddress then [⟨0, 0⟩, ⟨0, 1⟩] else [] }
        : SatTbtpHeader).GetTimeslots (demoMac true).m_macAddress = [] ∧
      ((ScheduleTimeSlots exactOps (demoMac true)
          { demoTbtp 0 3 [] with
            GetTimeslots := fun a => if a = otherAddress then [⟨0, 0⟩, ⟨0, 1⟩] else [] }).trace = [] ∧
        (ScheduleTimeSlots exactOps (demoMac true)
          { demoTbtp 0 3 [] with
            GetTimeslots := fun a => if a = otherAddress then [⟨0, 0⟩, ⟨0, 1⟩] else [] }).fatal
          = none) :=
  ⟨by decide, C3_no_grant_no_event exactOps (demoMac true) _ (by decide)⟩

/-! ## When the scheduled events fire -/

/-- Performing a list of `Simulator::Schedule` calls leaves the clock alone and
adds, per call, an event that fires at the current time plus the time handed
over. -/
theorem perform_map_schedule (time : TbtpTimeSlotInfo → Time) (carrier : TbtpTimeSlotInfo → Nat)
    (conf : TbtpTimeSlotInfo → SatTimeSlotConf D) (slots : List TbtpTimeSlotInfo)
    (sim : Simulator D) :
    (sim.perform (slots.map (fun it =>
        Effect.SimulatorSchedule (time it) (carrier it) (conf it)))).m_currentTs
        = sim.m_currentTs ∧
      (sim.perform (slots.map (fun it =>
        Effect.SimulatorSchedule (time it) (carrier it) (conf it)))).m_events.map SimEvent.m_ts
        = sim.m_events.map SimEvent.m_ts ++ slots.map (fun it => sim.m_currentTs + time it) := by
  induction slots generalizing sim with
  | nil => simp [Simulator.perform]
  | cons it rest ih =>
    have step := ih (sim.Schedule (time it) (carrier it) (conf it))
    simp only [List.map_cons, Simulator.perform]
    refine ⟨step.1, ?_⟩
    rw [step.2]
    simp [Simulator.Schedule, Simulator.Now]

/-- C4: the time at which a scheduled event fires is the simulated time at which
the TBTP is processed plus `Seconds (superframe duration * counter) +
Seconds (slot offset)`, because `Simulator::Schedule` takes a delay. In the
scenario (2.0 s, counter 3, offset 0.1 s) a TBTP processed at 0 s gives an
event at 6.1 s, and the same TBTP processed at 5 s gives an event at 11.1 s. -/
theorem C4_firing_time_depends_on_now (ops : DoubleOps D) (self : SatUtMac D)
    (tbtp : SatTbtpHeader) (now : Time) :
    ((Simulator.perform ⟨now, 0, []⟩ (ScheduleTimeSlots ops self tbtp).trace).m_events.map
        SimEvent.m_ts
        = (tbtp.GetTimeslots self.m_macAddress).map (fun it =>
            now + (ops.Seconds (ops.mulCounter
                (self.m_superframeSeq.GetDuration_s tbtp.GetSuperframeId)
                tbtp.GetSuperframeCounter)
              + ops.Seconds (((self.m_superframeSeq.GetSuperframeConf 0).GetFrameConf
                  it.GetFrameId).GetTimeSlotConf it.GetTimeSlotId).GetStartTime_s))) ∧
      (Simulator.perform ⟨0, 0, []⟩
          (ScheduleTimeSlots exactOps (demoMac true) (demoTbtp 0 3 [⟨0, 0⟩])).trace).m_events.map
        SimEvent.m_ts = [6100000000] ∧
      (Simulator.perform ⟨5000000000, 0, []⟩
          (ScheduleTimeSlots exactOps (demoMac true) (demoTbtp 0 3 [⟨0, 0⟩])).trace).m_events.map
        SimEvent.m_ts = [11100000000] := by
  have general : ∀ (E : Type) (o : DoubleOps E) (m : SatUtMac E) (t : SatTbtpHeader) (n : Time),
      (Simulator.perform ⟨n, 0, []⟩ (ScheduleTimeSlots o m t).trace).m_events.map SimEvent.m_ts
        = (t.GetTimeslots m.m_macAddress).map (fun it =>
            n + (o.Seconds (o.mulCounter (m.m_superframeSeq.GetDuration_s t.GetSuperframeId)
                t.GetSuperframeCounter)
              + o.Seconds (((m.m_superframeSeq.GetSuperframeConf 0).GetFrameConf
                  it.GetFrameId).GetTimeSlotConf it.GetTimeSlotId).GetStartTime_s)) := by
    intro E o m t n
    rw [ScheduleTimeSlots_trace, scheduleLoop_eq_map, (perform_map_schedule _ _ _ _ _).2]
    simp
  refine ⟨general D ops self tbtp now, ?_, ?_⟩
  · rw [general]
    norm_num [demoMac, demoTbtp, demoSeq, exactOps]
  · rw [general]
    norm_num [demoMac, demoTbtp, demoSeq, exactOps]

/-! ## Which configuration a grant resolves to -/

/-- C5: for a TBTP of superframe 1 with the grant (frame 0, slot 0), the event
that `ScheduleTimeSlots` schedules carries the configuration of that slot in
superframe 0 and the global carrier id of (0, 0, its carrier), which in the
scenario differ from the configuration of the slot in superframe 1 and from
the global carrier id of (1, 0, its carrier); the duration is read from
superframe 1. -/
theorem C5_superframe_zero_is_used :
    (ScheduleTimeSlots exactOps (demoMac true) (demoTbtp 1 3 [⟨0, 0⟩])).trace
        = [Effect.SimulatorSchedule
            (exactOps.Seconds (exactOps.mulCounter (demoSeq.GetDuration_s 1) 3)
              + exactOps.Seconds
                (((demoSeq.GetSuperframeConf 0).GetFrameConf 0).GetTimeSlotConf 0).GetStartTime_s)
            (demoSeq.GetCarrierId 0 0
              (((demoSeq.GetSuperframeConf 0).GetFrameConf 0).GetTimeSlotConf 0).GetCarrierId)
            (((demoSeq.GetSuperframeConf 0).GetFrameConf 0).GetTimeSlotConf 0)] ∧
      ((demoSeq.GetSuperframeConf 0).GetFrameConf 0).GetTimeSlotConf 0
        ≠ ((demoSeq.GetSuperframeConf 1).GetFrameConf 0).GetTimeSlotConf 0 ∧
      demoSeq.GetCarrierId 0 0
          (((demoSeq.GetSuperframeConf 0).GetFrameConf 0).GetTimeSlotConf 0).GetCarrierId = 0 ∧
      demoSeq.GetCarrierId 1 0
          (((demoSeq.GetSuperframeConf 1).GetFrameConf 0).GetTimeSlotConf 0).GetCarrierId = 101 := by
  refine ⟨?_, ?_, ?_, ?_⟩
  · rw [ScheduleTimeSlots_trace, scheduleLoop_eq_map]
    simp [demoMac, demoTbtp]
  · simp [demoSeq]
  · simp [demoSeq]
  · simp [demoSeq]

/-! ## The transmission opportunity -/

/-- The calls and the end of `TransmitTime` when the upper layer hands a packet
over. -/
theorem TransmitTime_some (ops : DoubleOps D) (self : SatUtMac D) (carrierId : Nat)
    (timeSlotConf : SatTimeSlotConf D) (p : Packet)
    (hPayload : self.m_txOpportunityCallback 123 self.m_macAddress = some p) :
    TransmitTime ops self carrierId timeSlotConf =
      ⟨[Effect.txOpportunityCallback 123 self.m_macAddress,
        Effect.SendPacket p carrierId (ops.FromDouble timeSlotConf.GetDuration_s - 1)], none⟩ := by
  simp [TransmitTime, hPayload]

/-- The calls and the end of `TransmitTime` when the upper layer has nothing. -/
theorem TransmitTime_none (ops : DoubleOps D) (self : SatUtMac D) (carrierId : Nat)
    (timeSlotConf : SatTimeSlotConf D)
    (hIdle : self.m_txOpportunityCallback 123 self.m_macAddress = none) :
    TransmitTime ops self carrierId timeSlotConf =
      ⟨[Effect.txOpportunityCallback 123 self.m_macAddress], none⟩ := by
  simp [TransmitTime, hIdle]

/-- C6: when the pull callback returns a packet `p`, `TransmitTime` calls
`SendPacket` exactly once, with `p`, the carrier id it was given and the
duration of the slot minus one tick. -/
theorem C6_send_once_with_guard_tick (ops : DoubleOps D) (self : SatUtMac D) (carrierId : Nat)
    (timeSlotConf : SatTimeSlotConf D) (p : Packet)
    (hPayload : self.m_txOpportunityCallback 123 self.m_macAddress = some p) :
    (TransmitTime ops self carrierId timeSlotConf).trace.filter Effect.isSend
      = [Effect.SendPacket p carrierId (ops.FromDouble timeSlotConf.GetDuration_s - 1)] := by
  rw [TransmitTime_some ops self carrierId timeSlotConf p hPayload]
  simp [Effect.isSend]

/-- With a packet ready, the slot of 0.01 s on carrier 7 gives one `SendPacket`
of 10 000 000 - 1 ticks. -/
theorem C6_send_once_with_guard_tick_witness :
    (demoMac true).m_txOpportunityCallback 123 (demoMac true).m_macAddress = some demoPayload ∧
      (TransmitTime exactOps (demoMac true) 7 ⟨1 / 10, 1 / 100, 0⟩).trace.filter Effect.isSend
        = [Effect.SendPacket demoPayload 7 (exactOps.FromDouble (1 / 100) - 1)] ∧
      exactOps.FromDouble (1 / 100) - 1 = 9999999 :=
  ⟨rfl, C6_send_once_with_guard_tick exactOps (demoMac true) 7 ⟨1 / 10, 1 / 100, 0⟩ demoPayload rfl,
    by norm_num [exactOps]⟩

/-- C7: when the pull callback returns nothing, `TransmitTime` makes no
`SendPacket` call and ends without a fatal error. -/
theorem C7_idle_slot_sends_nothing (ops : DoubleOps D) (self : SatUtMac D) (carrierId : Nat)
    (timeSlotConf : SatTimeSlotConf D)
    (hIdle : self.m_txOpportunityCallback 123 self.m_macAddress = none) :
    (TransmitTime ops self carrierId timeSlotConf).trace.filter Effect.isSend = [] ∧
      (TransmitTime ops self carrierId timeSlotConf).fatal = none := by
  rw [TransmitTime_none ops self carrierId timeSlotConf hIdle]
  simp [Effect.isSend]

/-- With nothing ready, the slot of 0.01 s on carrier 7 passes idle. -/
theorem C7_idle_slot_sends_nothing_witness :
    (demoMac false).m_txOpportunityCallback 123 (demoMac false).m_macAddress = none ∧
      ((TransmitTime exactOps (demoMac false) 7 ⟨1 / 10, 1 / 100, 0⟩).trace.filter Effect.isSend
          = [] ∧
        (TransmitTime exactOps (demoMac false) 7 ⟨1 / 10, 1 / 100, 0⟩).fatal = none) :=
  ⟨rfl, C7_idle_slot_sends_nothing exactOps (demoMac false) 7 ⟨1 / 10, 1 / 100, 0⟩ rfl⟩

/-- C8, as stated, fails: for a slot that lasts exactly one tick and a packet
ready, `TransmitTime` ends without a fatal error and calls `SendPacket` with
duration 0; for a slot of duration zero it calls `SendPacket` with duration
-1. -/
theorem C8_counterexample_short_slots :
    exactOps.FromDouble oneTickSlot.GetDuration_s ≤ 1 ∧
      TransmitTime exactOps (demoMac true) 7 oneTickSlot
        = ⟨[Effect.txOpportunityCallback 123 demoAddress,
            Effect.SendPacket demoPayload 7 0], none⟩ ∧
      exactOps.FromDouble emptySlot.GetDuration_s ≤ 1 ∧
      TransmitTime exactOps (demoMac true) 7 emptySlot
        = ⟨[Effect.txOpportunityCallback 123 demoAddress,
            Effect.SendPacket demoPayload 7 (-1)], none⟩ := by
  refine ⟨?_, ?_, ?_, ?_⟩
  · norm_num [exactOps, oneTickSlot]
  · rw [TransmitTime_some exactOps (demoMac true) 7 oneTickSlot demoPayload rfl]
    norm_num [exactOps, oneTickSlot, demoMac]
  · norm_num [exactOps, emptySlot]
  · rw [TransmitTime_some exactOps (demoMac true) 7 emptySlot demoPayload rfl]
    norm_num [exactOps, emptySlot, demoMac]

/-- C8, amended: with a packet ready, `TransmitTime` ends without a fatal error
for every timeslot configuration and calls `SendPacket` once; the duration it
passes is negative exactly when the slot lasts less than one tick and is 0
exactly when the slot lasts one tick. -/
theorem C8_send_duration_is_unchecked (ops : DoubleOps D) (self : SatUtMac D) (carrierId : Nat)
    (timeSlotConf : SatTimeSlotConf D) (p : Packet)
    (hPayload : self.m_txOpportunityCallback 123 self.m_macAddress = some p) :
    (TransmitTime ops self carrierId timeSlotConf).fatal = none ∧
      ∃ duration : Time,
        (TransmitTime ops self carrierId timeSlotConf).trace.filter Effect.isSend
          = [Effect.SendPacket p carrierId duration] ∧
        (duration < 0 ↔ ops.FromDouble timeSlotConf.GetDuration_s < 1) ∧
        (duration = 0 ↔ ops.FromDouble timeSlotConf.GetDuration_s = 1) := by
  rw [TransmitTime_some ops self carrierId timeSlotConf p hPayload]
  refine ⟨rfl, ops.FromDouble timeSlotConf.GetDuration_s - 1, ?_, ?_, ?_⟩
  · simp [Effect.isSend]
  · exact sub_neg
  · exact sub_eq_zero

/-- The amended statement at the slot of one tick, with a packet ready. -/
theorem C8_send_duration_is_unchecked_witness :
    (demoMac true).m_txOpportunityCallback 123 (demoMac true).m_macAddress = some demoPayload ∧
      ((TransmitTime exactOps (demoMac true) 7 oneTickSlot).fatal = none ∧
        ∃ duration : Time,
          (TransmitTime exactOps (demoMac true) 7 oneTickSlot).trace.filter Effect.isSend
            = [Effect.SendPacket demoPayload 7 duration] ∧
          (duration < 0 ↔ exactOps.FromDouble oneTickSlot.GetDuration_s < 1) ∧
          (duration = 0 ↔ exactOps.FromDouble oneTickSlot.GetDuration_s = 1)) :=
  ⟨rfl, C8_send_duration_is_unchecked exactOps (demoMac true) 7 oneTickSlot demoPayload rfl⟩

/-! ## Reception -/

/-- C9: a packet without an addressing tag makes `Receive` end in the fatal
error "MAC tag was not found from the packet!", whatever the state of the
terminal; the receive callback of the upper layer is not called and no
transmission event is scheduled. -/
theorem C9_missing_mac_tag_is_fatal (ops : DoubleOps D)
    (deserialize : List Nat → SatTbtpHeader × Nat) (self : SatUtMac D) (packet : Packet)
    (hNoTag : packet.PeekPacketTag = none) :
    (Receive ops deserialize self packet).fatal
        = some "MAC tag was not found from the packet!" ∧
      (Receive ops deserialize self packet).trace.filter Effect.isRxCallback = [] ∧
      (Receive ops deserialize self packet).trace.filter Effect.isSchedule = [] := by
  simp [Receive, hNoTag, Outcome.andThen, Effect.isRxCallback, Effect.isSchedule]

/-- A burst-time-plan packet without the addressing tag is fatal at the
terminal of the scenario. -/
theorem C9_missing_mac_tag_is_fatal_witness :
    untaggedPacket.PeekPacketTag = none ∧
      ((Receive exactOps demoDeserialize (demoMac true) untaggedPacket).fatal
          = some "MAC tag was not found from the packet!" ∧
        (Receive exactOps demoDeserialize (demoMac true) untaggedPacket).trace.filter
          Effect.isRxCallback = [] ∧
        (Receive exactOps demoDeserialize (demoMac true) untaggedPacket).trace.filter
          Effect.isSchedule = []) :=
  ⟨by decide, C9_missing_mac_tag_is_fatal exactOps demoDeserialize (demoMac true) untaggedPacket
    (by decide)⟩

/-- C10: a packet whose addressing tag names a destination that is neither the
address of the terminal nor the broadcast address makes `Receive` end in the
fatal error "UT received a packet not intended for it", whatever other tags it
carries; the receive callback of the upper layer is not called and no
transmission event is scheduled. -/
theorem C10_foreign_destination_is_fatal (ops : DoubleOps D)
    (deserialize : List Nat → SatTbtpHeader × Nat) (self : SatUtMac D) (packet : Packet)
    (macTag : SatMacTag) (hTag : packet.PeekPacketTag = some macTag)
    (hNotMine : macTag.GetDestAddress ≠ self.m_macAddress)
    (hNotBroadcast : macTag.GetDestAddress ≠ Mac48Address.GetBroadcast) :
    (Receive ops deserialize self packet).fatal
        = some "UT received a packet not intended for it" ∧
      (Receive ops deserialize self packet).trace.filter Effect.isRxCallback = [] ∧
      (Receive ops deserialize self packet).trace.filter Effect.isSchedule = [] := by
  simp [Receive, hTag, hNotMine, hNotBroadcast, Mac48Address.IsBroadcast, Outcome.andThen,
    Effect.isRxCallback, Effect.isSchedule]

/-- A burst-time-plan packet for another terminal is fatal at the terminal of
the scenario, although it carries a control tag and a further tag. -/
theorem C10_foreign_destination_is_fatal_witness :
    strayPacket.PeekPacketTag = some ⟨otherAddress, demoAddress⟩ ∧
      otherAddress ≠ (demoMac true).m_macAddress ∧
      otherAddress ≠ Mac48Address.GetBroadcast ∧
      ((Receive exactOps demoDeserialize (demoMac true) strayPacket).fatal
          = some "UT received a packet not intended for it" ∧
        (Receive exactOps demoDeserialize (demoMac true) strayPacket).trace.filter
          Effect.isRxCallback = [] ∧
        (Receive exactOps demoDeserialize (demoMac true) strayPacket).trace.filter
          Effect.isSchedule = []) :=
  ⟨by decide, by decide, by decide,
    C10_foreign_destination_is_fatal exactOps demoDeserialize (demoMac true) strayPacket
      ⟨otherAddress, demoAddress⟩ (by decide) (by decide) (by decide)⟩

/-! ## Reception of data and of control messages -/

/-- Taking the control-message tag out of a tag list that has none finds
nothing and leaves the list as it is. -/
theorem removeCtrlTag_of_no_ctrl (tags : List PacketTag)
    (hNone : ∀ t, PacketTag.ctrl t ∉ tags) : removeCtrlTag tags = (none, tags) := by
  induction tags with
  | nil => rfl
  | cons x rest ih =>
    have hRest : removeCtrlTag rest = (none, rest) :=
      ih (fun t ht => hNone t (List.mem_cons_of_mem x ht))
    cases x with
    | mac tag => simp [removeCtrlTag, hRest]
    | ctrl tag => exact absurd (List.mem_cons_self _ _) (hNone tag)
    | other typeId => simp [removeCtrlTag, hRest]

/-- All calls of `ScheduleTimeSlots` are `Simulator::Schedule` calls. -/
theorem ScheduleTimeSlots_filter_isSchedule (ops : DoubleOps D) (self : SatUtMac D)
    (tbtp : SatTbtpHeader) :
    (ScheduleTimeSlots ops self tbtp).trace.filter Effect.isSchedule
      = (ScheduleTimeSlots ops self tbtp).trace := by
  rw [ScheduleTimeSlots_trace, scheduleLoop_eq_map, List.filter_eq_self]
  intro e he
  obtain ⟨it, _, rfl⟩ := List.mem_map.mp he
  rfl

/-- No call of `ScheduleTimeSlots` is the receive callback of the upper layer. -/
theorem ScheduleTimeSlots_filter_isRxCallback (ops : DoubleOps D) (self : SatUtMac D)
    (tbtp : SatTbtpHeader) :
    (ScheduleTimeSlots ops self tbtp).trace.filter Effect.isRxCallback = [] := by
  rw [ScheduleTimeSlots_trace, scheduleLoop_eq_map, List.filter_eq_nil_iff]
  intro e he
  obtain ⟨it, _, rfl⟩ := List.mem_map.mp he
  simp [Effect.isRxCallback]

/-- `ScheduleTimeSlots` reads the address and the superframe sequence of the
terminal and nothing else. -/
theorem ScheduleTimeSlots_congr (ops : DoubleOps D) (self other : SatUtMac D)
    (tbtp : SatTbtpHeader) (hAddress : other.m_macAddress = self.m_macAddress)
    (hSeq : other.m_superframeSeq = self.m_superframeSeq) :
    ScheduleTimeSlots ops other tbtp = ScheduleTimeSlots ops self tbtp := by
  have hTrace : (ScheduleTimeSlots ops other tbtp).trace = (ScheduleTimeSlots ops self tbtp).trace := by
    rw [ScheduleTimeSlots_trace, ScheduleTimeSlots_trace, scheduleLoop_eq_map,
      scheduleLoop_eq_map, hAddress, hSeq]
  have hFatal : (ScheduleTimeSlots ops other tbtp).fatal = (ScheduleTimeSlots ops self tbtp).fatal := by
    rw [ScheduleTimeSlots_fatal, ScheduleTimeSlots_fatal]
  cases hOther : ScheduleTimeSlots ops other tbtp
  cases hSelf : ScheduleTimeSlots ops self tbtp
  rw [hOther, hSelf] at hTrace hFatal
  simp only at hTrace hFatal
  rw [hTrace, hFatal]

/-- C11: for a packet whose addressing tag names the address of the terminal or
the broadcast address and that carries no control-message tag, `Receive` calls
the receive callback of the upper layer exactly once, with that packet and the
destination address of the tag, schedules no transmission event and ends
without a fatal error. -/
theorem C11_data_packet_goes_up_once (ops : DoubleOps D)
    (deserialize : List Nat → SatTbtpHeader × Nat) (self : SatUtMac D) (packet : Packet)
    (macTag : SatMacTag) (hTag : packet.PeekPacketTag = some macTag)
    (hMine : macTag.GetDestAddress = self.m_macAddress
      ∨ macTag.GetDestAddress = Mac48Address.GetBroadcast)
    (hNoCtrl : ∀ t, PacketTag.ctrl t ∉ packet.m_packetTagList) :
    (Receive ops deserialize self packet).trace.filter Effect.isRxCallback
        = [Effect.rxCallback packet macTag.GetDestAddress] ∧
      (Receive ops deserialize self packet).trace.filter Effect.isSchedule = [] ∧
      (Receive ops deserialize self packet).fatal = none := by
  have hAddr : (macTag.GetDestAddress == self.m_macAddress
      || macTag.GetDestAddress.IsBroadcast) = true := by
    rcases hMine with h | h <;> simp [h, Mac48Address.IsBroadcast]
  have hRemove : packet.RemovePacketTag = (none, packet) := by
    simp [Packet.RemovePacketTag, removeCtrlTag_of_no_ctrl _ hNoCtrl]
  simp only [Receive, hTag, hAddr, hRemove, if_true]
  simp [Outcome.andThen, Effect.isRxCallback, Effect.isSchedule]

/-- A data packet for the terminal of the scenario goes up once. -/
theorem C11_data_packet_goes_up_once_witness :
    dataPacket.PeekPacketTag = some ⟨demoAddress, otherAddress⟩ ∧
      (demoAddress = (demoMac true).m_macAddress ∨ demoAddress = Mac48Address.GetBroadcast) ∧
      (∀ t, PacketTag.ctrl t ∉ dataPacket.m_packetTagList) ∧
      ((Receive exactOps demoDeserialize (demoMac true) dataPacket).trace.filter
          Effect.isRxCallback = [Effect.rxCallback dataPacket demoAddress] ∧
        (Receive exactOps demoDeserialize (demoMac true) dataPacket).trace.filter
          Effect.isSchedule = [] ∧
        (Receive exactOps demoDeserialize (demoMac true) dataPacket).fatal = none) :=
  ⟨by decide, Or.inl rfl, by simp [dataPacket],
    C11_data_packet_goes_up_once exactOps demoDeserialize (demoMac true) dataPacket
      ⟨demoAddress, otherAddress⟩ (by decide) (Or.inl rfl) (by simp [dataPacket])⟩

/-- C12: for every packet, `ReceiveSignalingPacket` with the type
`SAT_RA_CTRL_MSG` or `SAT_CR_CTRL_MSG` ends in the fatal error "SatUtMac
received a non-supported control packet!" and makes no call before it, so no
transmission event is scheduled. -/
theorem C12_request_types_are_fatal (ops : DoubleOps D)
    (deserialize : List Nat → SatTbtpHeader × Nat) (self : SatUtMac D) (packet : Packet) :
    ReceiveSignalingPacket ops deserialize self packet SatControlMsgType_t.SAT_RA_CTRL_MSG
        = ⟨[], some "SatUtMac received a non-supported control packet!"⟩ ∧
      ReceiveSignalingPacket ops deserialize self packet SatControlMsgType_t.SAT_CR_CTRL_MSG
        = ⟨[], some "SatUtMac received a non-supported control packet!"⟩ :=
  ⟨rfl, rfl⟩

/-- C13: for a packet addressed to the terminal or to broadcast whose
control-message tag has the type `SAT_TBTP_CTRL_MSG` and from whose bytes a TBTP
header of more than 0 bytes is read, the transmission events that `Receive`
schedules are the calls of `ScheduleTimeSlots` for that TBTP, in the same
order; the receive callback of the upper layer is not called. -/
theorem C13_tbtp_packet_is_scheduled (ops : DoubleOps D)
    (deserialize : List Nat → SatTbtpHeader × Nat) (self : SatUtMac D) (packet : Packet)
    (macTag : SatMacTag) (hTag : packet.PeekPacketTag = some macTag)
    (hMine : macTag.GetDestAddress = self.m_macAddress
      ∨ macTag.GetDestAddress = Mac48Address.GetBroadcast)
    (hCtrl : packet.RemovePacketTag.1 = some ⟨SatControlMsgType_t.SAT_TBTP_CTRL_MSG⟩)
    (hHeader : 0 < (deserialize packet.m_buffer).2) :
    (Receive ops deserialize self packet).trace.filter Effect.isSchedule
        = (ScheduleTimeSlots ops self (deserialize packet.m_buffer).1).trace ∧
      (Receive ops deserialize self packet).trace.filter Effect.isRxCallback = [] ∧
      (Receive ops deserialize self packet).fatal = none := by
  have hAddr : (macTag.GetDestAddress == self.m_macAddress
      || macTag.GetDestAddress.IsBroadcast) = true := by
    rcases hMine with h | h <;> simp [h, Mac48Address.IsBroadcast]
  have hRemove : packet.RemovePacketTag
      = (some ⟨SatControlMsgType_t.SAT_TBTP_CTRL_MSG⟩, packet.RemovePacketTag.2) := by
    rw [← hCtrl]
  have hSignal : ReceiveSignalingPacket ops deserialize self
      packet.RemovePacketTag.2.RemovePacketTag.2 SatControlMsgType_t.SAT_TBTP_CTRL_MSG
      = ScheduleTimeSlots ops self (deserialize packet.m_buffer).1 := by
    have hBuffer : packet.RemovePacketTag.2.RemovePacketTag.2.m_buffer = packet.m_buffer := rfl
    simp [ReceiveSignalingPacket, hBuffer, hHeader]
  have hRun : Receive ops deserialize self packet
      = Outcome.andThen
          ⟨[Effect.snifferTrace packet, Effect.promiscSnifferTrace packet,
            Effect.macRxTrace packet], none⟩
          (ScheduleTimeSlots ops self (deserialize packet.m_buffer).1) := by
    rw [← hSignal]
    simp only [Receive, hTag, hAddr, if_true]
    rw [hRemove]
    simp
  rw [hRun]
  simp [Outcome.andThen, Effect.isSchedule, Effect.isRxCallback,
    ScheduleTimeSlots_filter_isSchedule, ScheduleTimeSlots_filter_isRxCallback,
    ScheduleTimeSlots_fatal]

/-- A broadcast burst-time-plan packet schedules, at the terminal of the
scenario, the events of the TBTP read from it. -/
theorem C13_tbtp_packet_is_scheduled_witness :
    tbtpPacket.PeekPacketTag = some ⟨Mac48Address.GetBroadcast, otherAddress⟩ ∧
      (Mac48Address.GetBroadcast = (demoMac true).m_macAddress
        ∨ Mac48Address.GetBroadcast = Mac48Address.GetBroadcast) ∧
      tbtpPacket.RemovePacketTag.1 = some ⟨SatControlMsgType_t.SAT_TBTP_CTRL_MSG⟩ ∧
      0 < (demoDeserialize tbtpPacket.m_buffer).2 ∧
      ((Receive exactOps demoDeserialize (demoMac true) tbtpPacket).trace.filter
          Effect.isSchedule
          = (ScheduleTimeSlots exactOps (demoMac true)
              (demoDeserialize tbtpPacket.m_buffer).1).trace ∧
        (Receive exactOps demoDeserialize (demoMac true) tbtpPacket).trace.filter
          Effect.isRxCallback = [] ∧
        (Receive exactOps demoDeserialize (demoMac true) tbtpPacket).fatal = none) :=
  ⟨by decide, Or.inr rfl, by decide, by decide,
    C13_tbtp_packet_is_scheduled exactOps demoDeserialize (demoMac true) tbtpPacket
      ⟨Mac48Address.GetBroadcast, otherAddress⟩ (by decide) (Or.inr rfl) (by decide)
      (by decide)⟩

/-- C14, as stated, fails: for the type `SAT_NON_CTRL_MSG` ("no control
message") `ReceiveSignalingPacket` takes the `default` label of its switch and
ends in a fatal error. -/
theorem C14_counterexample_non_ctrl_is_fatal :
    ReceiveSignalingPacket exactOps demoDeserialize (demoMac true) tbtpPacket
        SatControlMsgType_t.SAT_NON_CTRL_MSG
      = ⟨[], some "SatUtMac received a non-supported control packet!"⟩ :=
  rfl

/-- C14, amended: `ReceiveSignalingPacket` supports exactly one message type,
the burst-time-plan. For `SAT_TBTP_CTRL_MSG` it ends without a fatal error, and
for every other type, `SAT_NON_CTRL_MSG` among them, it ends in the fatal error
"SatUtMac received a non-supported control packet!". -/
theorem C14_only_tbtp_is_supported (ops : DoubleOps D)
    (deserialize : List Nat → SatTbtpHeader × Nat) (self : SatUtMac D) (packet : Packet)
    (cType : SatControlMsgType_t) :
    ((ReceiveSignalingPacket ops deserialize self packet cType).fatal = none
        ↔ cType = SatControlMsgType_t.SAT_TBTP_CTRL_MSG) ∧
      ((ReceiveSignalingPacket ops deserialize self packet cType).fatal
          = some "SatUtMac received a non-supported control packet!"
        ↔ cType ≠ SatControlMsgType_t.SAT_TBTP_CTRL_MSG) := by
  have hTbtp : (ReceiveSignalingPacket ops deserialize self packet
      SatControlMsgType_t.SAT_TBTP_CTRL_MSG).fatal = none := by
    unfold ReceiveSignalingPacket
    by_cases h : (deserialize packet.m_buffer).2 > 0
    · simp [h, ScheduleTimeSlots_fatal]
    · simp [h]
  cases cType with
  | SAT_TBTP_CTRL_MSG => simp [hTbtp]
  | SAT_NON_CTRL_MSG => simp [ReceiveSignalingPacket]
  | SAT_RA_CTRL_MSG => simp [ReceiveSignalingPacket]
  | SAT_CR_CTRL_MSG => simp [ReceiveSignalingPacket]
  | SAT_OTHER_CTRL_MSG value => simp [ReceiveSignalingPacket]

/-- C15: for every carrier id and timeslot configuration, `TransmitTime` calls
the pull callback exactly once, with 123 bytes and the address of the terminal,
whether or not the upper layer then hands a packet over. -/
theorem C15_pull_once_with_123_bytes (ops : DoubleOps D) (self : SatUtMac D) (carrierId : Nat)
    (timeSlotConf : SatTimeSlotConf D) :
    (TransmitTime ops self carrierId timeSlotConf).trace.filter Effect.isTxOpportunity
      = [Effect.txOpportunityCallback 123 self.m_macAddress] := by
  cases h : self.m_txOpportunityCallback 123 self.m_macAddress with
  | none =>
    rw [TransmitTime_none ops self carrierId timeSlotConf h]
    simp [Effect.isTxOpportunity]
  | some p =>
    rw [TransmitTime_some ops self carrierId timeSlotConf p h]
    simp [Effect.isTxOpportunity]

/-- `TransmitTime` reads the address and the pull callback of the terminal and
nothing else. -/
theorem TransmitTime_congr (ops : DoubleOps D) (self other : SatUtMac D) (carrierId : Nat)
    (timeSlotConf : SatTimeSlotConf D) (hAddress : other.m_macAddress = self.m_macAddress)
    (hPull : other.m_txOpportunityCallback = self.m_txOpportunityCallback) :
    TransmitTime ops other carrierId timeSlotConf = TransmitTime ops self carrierId timeSlotConf := by
  simp only [TransmitTime, hAddress, hPull]

/-- `ReceiveSignalingPacket` reads the address and the superframe sequence of
the terminal and nothing else. -/
theorem ReceiveSignalingPacket_congr (ops : DoubleOps D)
    (deserialize : List Nat → SatTbtpHeader × Nat) (self other : SatUtMac D) (packet : Packet)
    (cType : SatControlMsgType_t) (hAddress : other.m_macAddress = self.m_macAddress)
    (hSeq : other.m_superframeSeq = self.m_superframeSeq) :
    ReceiveSignalingPacket ops deserialize other packet cType
      = ReceiveSignalingPacket ops deserialize self packet cType := by
  cases cType <;>
    simp only [ReceiveSignalingPacket, ScheduleTimeSlots_congr ops self other _ hAddress hSeq]

/-- `Receive` reads the address and the superframe sequence of the terminal and
nothing else. -/
theorem Receive_congr (ops : DoubleOps D) (deserialize : List Nat → SatTbtpHeader × Nat)
    (self other : SatUtMac D) (packet : Packet)
    (hAddress : other.m_macAddress = self.m_macAddress)
    (hSeq : other.m_superframeSeq = self.m_superframeSeq) :
    Receive ops deserialize other packet = Receive ops deserialize self packet := by
  simp only [Receive, hAddress,
    ReceiveSignalingPacket_congr ops deserialize self other _ _ hAddress hSeq]

/-- C16: the timing-advance callback is a hook that nothing reads. For a
terminal state and the state that differs from it only in the timing-advance
callback (any callback, or none), `ScheduleTimeSlots`, `TransmitTime` and
`Receive` end the same way with the same calls; and `SetTimingAdvanceCallback`
stores the callback and leaves the address, the superframe sequence, the
constant rate assignment and the pull callback as they are. -/
theorem C16_timing_advance_hook_is_inert (ops : DoubleOps D)
    (deserialize : List Nat → SatTbtpHeader × Nat) (self : SatUtMac D)
    (installed : Option (Unit → Time)) (cb : Unit → Time) (tbtp : SatTbtpHeader)
    (carrierId : Nat) (timeSlotConf : SatTimeSlotConf D) (packet : Packet) :
    ScheduleTimeSlots ops { self with m_timingAdvanceCb := installed } tbtp
        = ScheduleTimeSlots ops self tbtp ∧
      TransmitTime ops { self with m_timingAdvanceCb := installed } carrierId timeSlotConf
        = TransmitTime ops self carrierId timeSlotConf ∧
      Receive ops deserialize { self with m_timingAdvanceCb := installed } packet
        = Receive ops deserialize self packet ∧
      SetTimingAdvanceCallback self cb = { self with m_timingAdvanceCb := some cb } ∧
      (SetTimingAdvanceCallback self cb).m_macAddress = self.m_macAddress ∧
      (SetTimingAdvanceCallback self cb).m_superframeSeq = self.m_superframeSeq ∧
      (SetTimingAdvanceCallback self cb).m_cra = self.m_cra ∧
      (SetTimingAdvanceCallback self cb).m_txOpportunityCallback
        = self.m_txOpportunityCallback :=
  ⟨ScheduleTimeSlots_congr ops self _ tbtp rfl rfl,
    TransmitTime_congr ops self _ carrierId timeSlotConf rfl rfl,
    Receive_congr ops deserialize self _ packet rfl rfl, rfl, rfl, rfl, rfl, rfl⟩

end SatUtMac

/-! ## Receiver carrier configuration -/

namespace SatPhyRxCarrierConf

variable {D : Type}

/-- The round for `CarrierCount` leaves a carrier count of at least 1, whatever
the storage held and whatever value was supplied. -/
theorem constructCarrierCount_ge_one (self : SatPhyRxCarrierConf D) (supplied : Option Nat) :
    1 ≤ (constructCarrierCount self supplied).m_carrierCount := by
  have hInitial : (DoSetCarrierCount self CarrierCountInitialValue).2.m_carrierCount = 1 := by
    simp [DoSetCarrierCount, CarrierCountChecker, CarrierCountInitialValue]
  cases supplied with
  | none => simp only [constructCarrierCount, hInitial, le_refl]
  | some value =>
    by_cases hOk : CarrierCountChecker value = true
    · have hOne : 1 ≤ value := by
        simp only [CarrierCountChecker, Bool.and_eq_true, decide_eq_true_eq] at hOk
        exact hOk.1
      simp [constructCarrierCount, DoSetCarrierCount, hOk, hOne]
    · have hStored : (DoSetCarrierCount self value).1 = false := by
        simp [DoSetCarrierCount, hOk]
      simp only [constructCarrierCount, hStored, hInitial, le_refl, Bool.false_eq_true,
        if_false]

/-- The attribute initialisation leaves a carrier count of at least 1. -/
theorem ConstructSelf_carrierCount (self : SatPhyRxCarrierConf D)
    (attributes : AttributeConstructionList D) :
    1 ≤ (ConstructSelf self attributes).m_carrierCount :=
  constructCarrierCount_ge_one _ _

/-- C17: `GetCarrierBandwidthHz (carrierId, bandwidthType)` returns the value of
the conversion function at (the channel type of the configuration, the carrier
id, the bandwidth type), also after `SetLinkResults`, which leaves the channel
type alone; the getter `GetCarrierBandwidth_Hz (carrierId)` of the
implementation file hands the channel type and the carrier id to the
conversion function it stores. -/
theorem C17_bandwidth_is_delegated {B : Type} (converter : ChannelType_t → Nat → B → D)
    (self : SatPhyRxCarrierConf D) (carrierId : Nat) (bandwidthType : B)
    (linkResults : Option Nat) :
    GetCarrierBandwidthHz converter self carrierId bandwidthType
        = converter self.m_channelType carrierId bandwidthType ∧
      GetCarrierBandwidthHz converter (self.SetLinkResults linkResults) carrierId bandwidthType
        = converter self.m_channelType carrierId bandwidthType ∧
      self.GetCarrierBandwidth_Hz carrierId
        = self.m_carrierBandwidthConverter self.m_channelType carrierId :=
  ⟨rfl, rfl, rfl⟩

/-- C18: the attribute `CarrierCount` is checked when an object is constructed.
After either constructor and the attribute initialisation `GetCarrierCount` is
at least 1, whatever the storage held and whatever values were supplied; a
supplied 0 is not stored (the count is then the initial value 1), `DoSet`
refuses 0 and `SetAttribute` with 0 is a fatal error. -/
theorem C18_carrier_count_at_least_one (DbToLinear DbWToW : D → D) (raw : SatPhyRxCarrierConf D)
    (attributes : AttributeConstructionList D) (rxTemperature_dBK rxOtherSysNoise_dBW : D)
    (errorModel : ErrorModel) (ifModel : InterferenceModel) (rxMode : RxMode) :
    1 ≤ (ConstructSelf (new raw) attributes).GetCarrierCount ∧
      1 ≤ (ConstructSelf (newWith DbToLinear DbWToW raw rxTemperature_dBK rxOtherSysNoise_dBW
        errorModel ifModel rxMode) attributes).GetCarrierCount ∧
      (ConstructSelf (new raw) { attributes with CarrierCount := some 0 }).GetCarrierCount = 1 ∧
      DoSetCarrierCount raw 0 = (false, raw) ∧
      SetAttributeCarrierCount raw 0
        = Except.error "Attribute name=CarrierCount could not be set for this object" := by
  refine ⟨ConstructSelf_carrierCount _ _, ConstructSelf_carrierCount _ _, ?_, ?_, ?_⟩
  · simp [ConstructSelf, constructCarrierCount, GetCarrierCount, DoSetCarrierCount,
      CarrierCountChecker, CarrierCountInitialValue]
  · simp [DoSetCarrierCount, CarrierCountChecker]
  · simp [SetAttributeCarrierCount, DoSetCarrierCount, CarrierCountChecker]

end SatPhyRxCarrierConf

/-! ## Markov channel-state configuration -/

namespace SatMarkovConf

/-- What `bucketOf` finds is an entry of the map whose key is not above the
elevation, and no entry has a key between the two. -/
theorem bucketOf_some (elevation : ℚ) (entries : List (ℚ × Nat)) (best : ℚ × Nat)
    (hBest : bucketOf elevation entries = some best) :
    best ∈ entries ∧ best.1 ≤ elevation ∧
      ∀ entry ∈ entries, entry.1 ≤ elevation → entry.1 ≤ best.1 := by
  induction entries generalizing best with
  | nil => simp [bucketOf] at hBest
  | cons entry rest ih =>
    unfold bucketOf at hBest
    cases hRest : bucketOf elevation rest with
    | none =>
      have hAbove : ∀ x ∈ rest, elevation < x.1 := by
        clear hBest ih
        induction rest with
        | nil => simp
        | cons y ys ihy =>
          unfold bucketOf at hRest
          cases hYs : bucketOf elevation ys with
          | none =>
            rw [hYs] at hRest
            by_cases hy : y.1 ≤ elevation
            · simp [hy] at hRest
            · intro x hx
              rcases List.mem_cons.mp hx with rfl | hx
              · exact lt_of_not_le hy
              · exact ihy hYs x hx
          | some b =>
            rw [hYs] at hRest
            by_cases hc : y.1 ≤ elevation ∧ b.1 < y.1 <;> simp [hc] at hRest
      rw [hRest] at hBest
      by_cases he : entry.1 ≤ elevation
      · simp only [he, if_true, Option.some.injEq] at hBest
        subst hBest
        refine ⟨List.mem_cons_self _ _, he, ?_⟩
        intro x hx hxe
        rcases List.mem_cons.mp hx with rfl | hx
        · exact le_refl _
        · exact absurd hxe (not_le_of_lt (hAbove x hx))
      · simp [he] at hBest
    | some b =>
      rw [hRest] at hBest
      obtain ⟨hbMem, hbLe, hbMax⟩ := ih b hRest
      by_cases hc : entry.1 ≤ elevation ∧ b.1 < entry.1
      · simp only [hc, and_self, if_true, Option.some.injEq] at hBest
        subst hBest
        refine ⟨List.mem_cons_self _ _, hc.1, ?_⟩
        intro x hx hxe
        rcases List.mem_cons.mp hx with rfl | hx
        · exact le_refl _
        · exact le_trans (hbMax x hx hxe) (le_of_lt hc.2)
      · simp only [hc, if_false, Option.some.injEq] at hBest
        subst hBest
        refine ⟨List.mem_cons_of_mem _ hbMem, hbLe, ?_⟩
        intro x hx hxe
        rcases List.mem_cons.mp hx with rfl | hx
        · by_contra hlt
          exact hc ⟨hxe, lt_of_not_le hlt⟩
        · exact hbMax x hx hxe

/-- The search `bucketOf` finds nothing exactly when every key is above the
elevation. -/
theorem bucketOf_none_iff (elevation : ℚ) (entries : List (ℚ × Nat)) :
    bucketOf elevation entries = none ↔ ∀ entry ∈ entries, elevation < entry.1 := by
  constructor
  · intro hNone
    induction entries with
    | nil => simp
    | cons y ys ih =>
      unfold bucketOf at hNone
      cases hYs : bucketOf elevation ys with
      | none =>
        rw [hYs] at hNone
        by_cases hy : y.1 ≤ elevation
        · simp [hy] at hNone
        · intro x hx
          rcases List.mem_cons.mp hx with rfl | hx
          · exact lt_of_not_le hy
          · exact ih hYs x hx
      | some b =>
        rw [hYs] at hNone
        by_cases hc : y.1 ≤ elevation ∧ b.1 < y.1 <;> simp [hc] at hNone
  · intro hAbove
    cases hBest : bucketOf elevation entries with
    | none => rfl
    | some best =>
      obtain ⟨hMem, hLe, _⟩ := bucketOf_some elevation entries best hBest
      exact absurd hLe (not_le_of_lt (hAbove best hMem))

/-- C19: `GetProbabilitySetID` maps an elevation to the set id of the bucket it
falls into and fails outside the buckets. For an elevation between 0 and 90
degrees that is not below every configured key, it returns a set id, and that
set id is stored under the greatest configured key that is not above the
elevation. It fails exactly when the elevation is below 0, above 90 or below
every configured key, and whatever it returns is the set id of that bucket.
With the buckets `{0: set 0, 30: set 1, 60: set 2}` an elevation of 45 degrees
gives set 1, as does one of 30 or of 59; 0 and 29 degrees give set 0, 60 and
90 degrees give set 2; 95 degrees and -1 degree give a failure. -/
theorem C19_elevation_bucket (self : SatMarkovConf) (elevation : ℚ) :
    (0 ≤ elevation → elevation ≤ 90 →
        (∃ entry ∈ self.m_markovElevations, entry.1 ≤ elevation) →
        ∃ (key : ℚ) (setId : Nat), self.GetProbabilitySetID elevation = some setId ∧
          (key, setId) ∈ self.m_markovElevations ∧ key ≤ elevation ∧
          ∀ entry ∈ self.m_markovElevations, entry.1 ≤ elevation → entry.1 ≤ key) ∧
      (self.GetProbabilitySetID elevation = none ↔
        (elevation < 0 ∨ 90 < elevation
          ∨ ∀ entry ∈ self.m_markovElevations, elevation < entry.1)) ∧
      (∀ setId : Nat, self.GetProbabilitySetID elevation = some setId →
        0 ≤ elevation ∧ elevation ≤ 90 ∧
        ∃ key : ℚ, (key, setId) ∈ self.m_markovElevations ∧ key ≤ elevation ∧
          ∀ entry ∈ self.m_markovElevations, entry.1 ≤ elevation → entry.1 ≤ key) ∧
      (demoMarkovConf.GetProbabilitySetID 45 = some 1 ∧
        demoMarkovConf.GetProbabilitySetID 95 = none ∧
        demoMarkovConf.GetProbabilitySetID (-1) = none ∧
        demoMarkovConf.GetProbabilitySetID 0 = some 0 ∧
        demoMarkovConf.GetProbabilitySetID 29 = some 0 ∧
        demoMarkovConf.GetProbabilitySetID 30 = some 1 ∧
        demoMarkovConf.GetProbabilitySetID 59 = some 1 ∧
        demoMarkovConf.GetProbabilitySetID 60 = some 2 ∧
        demoMarkovConf.GetProbabilitySetID 90 = some 2) := by
  have hFound : ∀ setId : Nat, self.GetProbabilitySetID elevation = some setId →
      0 ≤ elevation ∧ elevation ≤ 90 ∧
      ∃ key : ℚ, (key, setId) ∈ self.m_markovElevations ∧ key ≤ elevation ∧
        ∀ entry ∈ self.m_markovElevations, entry.1 ≤ elevation → entry.1 ≤ key := by
    intro setId hSome
    unfold GetProbabilitySetID at hSome
    by_cases hRange : elevation < 0 ∨ 90 < elevation
    · simp [hRange] at hSome
    · rw [if_neg hRange] at hSome
      obtain ⟨best, hBest, hSnd⟩ := Option.map_eq_some'.mp hSome
      obtain ⟨hMem, hLe, hMax⟩ := bucketOf_some elevation _ best hBest
      have hPair : best = (best.1, setId) := by rw [← hSnd]
      refine ⟨le_of_not_lt (fun h => hRange (Or.inl h)),
        le_of_not_lt (fun h => hRange (Or.inr h)), best.1, ?_, hLe, hMax⟩
      rw [← hPair]
      exact hMem
  have hFails : self.GetProbabilitySetID elevation = none ↔
      (elevation < 0 ∨ 90 < elevation
        ∨ ∀ entry ∈ self.m_markovElevations, elevation < entry.1) := by
    unfold GetProbabilitySetID
    by_cases hRange : elevation < 0 ∨ 90 < elevation
    · rw [if_pos hRange]
      constructor
      · intro _
        rcases hRange with h | h
        · exact Or.inl h
        · exact Or.inr (Or.inl h)
      · intro _
        rfl
    · rw [if_neg hRange, Option.map_eq_none', bucketOf_none_iff]
      constructor
      · intro h
        exact Or.inr (Or.inr h)
      · rintro (h | h | h)
        · exact absurd (Or.inl h) hRange
        · exact absurd (Or.inr h) hRange
        · exact h
  refine ⟨?_, hFails, hFound, by decide⟩
  intro hLow hHigh hBucket
  cases hResult : self.GetProbabilitySetID elevation with
  | none =>
    obtain ⟨entry, hMem, hLe⟩ := hBucket
    rcases hFails.mp hResult with h | h | h
    · exact absurd hLow (not_le_of_lt h)
    · exact absurd hHigh (not_le_of_lt h)
    · exact absurd hLe (not_le_of_lt (h entry hMem))
  | some setId =>
    obtain ⟨_, _, key, hKey, hLe, hMax⟩ := hFound setId hResult
    exact ⟨key, setId, rfl, hKey, hLe, hMax⟩

/-- The look-ups at 45 and at 44 degrees in the buckets
`{0: set 0, 30: set 1, 60: set 2}`: both are inside the bucket of the key 30,
so both return a set id stored under the greatest key that is not above them,
and 95 degrees fails. -/
theorem C19_elevation_bucket_witness :
    (0 ≤ (45 : ℚ) ∧ (45 : ℚ) ≤ 90 ∧ (∃ entry ∈ demoMarkovConf.m_markovElevations, entry.1 ≤ 45)) ∧
      (∃ (key : ℚ) (setId : Nat), demoMarkovConf.GetProbabilitySetID 45 = some setId ∧
        (key, setId) ∈ demoMarkovConf.m_markovElevations ∧ key ≤ 45 ∧
        ∀ entry ∈ demoMarkovConf.m_markovElevations, entry.1 ≤ 45 → entry.1 ≤ key) ∧
      (∃ (key : ℚ) (setId : Nat), demoMarkovConf.GetProbabilitySetID 44 = some setId ∧
        (key, setId) ∈ demoMarkovConf.m_markovElevations ∧ key ≤ 44 ∧
        ∀ entry ∈ demoMarkovConf.m_markovElevations, entry.1 ≤ 44 → entry.1 ≤ key) ∧
      demoMarkovConf.GetProbabilitySetID 44 = some 1 ∧
      (demoMarkovConf.GetProbabilitySetID 95 = none ↔
        ((95 : ℚ) < 0 ∨ (90 : ℚ) < 95
          ∨ ∀ entry ∈ demoMarkovConf.m_markovElevations, (95 : ℚ) < entry.1)) :=
  ⟨⟨by norm_num, by norm_num, (30, 1), by simp [demoMarkovConf], by norm_num⟩,
    (C19_elevation_bucket demoMarkovConf 45).1 (by norm_num) (by norm_num)
      ⟨(30, 1), by simp [demoMarkovConf], by norm_num⟩,
    (C19_elevation_bucket demoMarkovConf 44).1 (by norm_num) (by norm_num)
      ⟨(30, 1), by simp [demoMarkovConf], by norm_num⟩,
    by decide,
    (C19_elevation_bucket demoMarkovConf 95).2.1⟩

end SatMarkovConf

/-! ## Statistics helper -/

/-- An index that the search finds is at least `pos`, at least the index the
search started to count from, and inside the characters searched. -/
theorem findFirstOfFrom_some (accept : List Char) (pos : Nat) (chars : List Char)
    (index found : Nat) (hFound : findFirstOfFrom accept pos chars index = some found) :
    pos ≤ found ∧ index ≤ found ∧ found < index + chars.length := by
  induction chars generalizing index with
  | nil => simp [findFirstOfFrom] at hFound
  | cons c rest ih =>
    unfold findFirstOfFrom at hFound
    by_cases hHit : pos ≤ index ∧ c ∈ accept
    · rw [if_pos hHit] at hFound
      have hEq : index = found := Option.some.inj hFound
      subst hEq
      exact ⟨hHit.1, le_refl _, by simp⟩
    · rw [if_neg hHit] at hFound
      obtain ⟨h1, h2, h3⟩ := ih (index + 1) hFound
      refine ⟨h1, by omega, ?_⟩
      simp only [List.length_cons]
      omega

/-- An index that `find_first_of` returns is at least `pos` and inside the
string. -/
theorem find_first_of_some (str s : List Char) (pos n found : Nat)
    (hFound : find_first_of str s pos n = some found) : pos ≤ found ∧ found < str.length := by
  obtain ⟨h1, _, h3⟩ := findFirstOfFrom_some _ _ _ _ _ hFound
  exact ⟨h1, by omega⟩

namespace SatStatsHelper

/-- The loop of `SetName` ends before its fuel runs out when the fuel exceeds
the number of characters from the current position to the end. -/
theorem setNameLoop_isSome_of_fuel (fuel : Nat) (name : List Char) (pos : Option Nat)
    (hFuel : ∀ p, pos = some p → p < name.length ∧ name.length < fuel + p) :
    ∃ converted, setNameLoop fuel name pos = some converted := by
  induction fuel generalizing name pos with
  | zero =>
    cases pos with
    | none => exact ⟨name, rfl⟩
    | some p =>
      have h := hFuel p rfl
      omega
  | succ fuel ih =>
    cases pos with
    | none => exact ⟨name, rfl⟩
    | some p =>
      have h := hFuel p rfl
      simp only [setNameLoop]
      apply ih
      intro q hq
      have hNext := find_first_of_some _ _ _ _ _ hq
      simp only [List.length_set] at hNext ⊢
      omega

/-- The loop of `SetName` always ends within the fuel that `SetName` gives it. -/
theorem setNameLoop_isSome (name : List Char) :
    ∃ converted,
      setNameLoop (name.length + 1) name (find_first_of name [' ', '/'] 0 2) = some converted := by
  apply setNameLoop_isSome_of_fuel
  intro p hp
  have h := find_first_of_some _ _ _ _ _ hp
  omega

/-- C20: `SetName` does not convert every slash. For the name "a/b/c" the
stored name is "a_b/c", and for "a b/c" it is "a_b/c" as well: the slash after
the first converted character stays, because from the second round on the loop
looks for the first character of the literal " /" only, the space. -/
theorem C20_later_slashes_stay (self : SatStatsHelper) :
    (self.SetName "a/b/c".toList).GetName = "a_b/c".toList ∧
      '/' ∈ (self.SetName "a/b/c".toList).GetName ∧
      (self.SetName "a b/c".toList).GetName = "a_b/c".toList ∧
      '/' ∈ (self.SetName "a b/c".toList).GetName ∧
      (self.SetName "a/b c".toList).GetName = "a_b_c".toList := by
  have h1 : (self.SetName "a/b/c".toList).GetName = "a_b/c".toList := rfl
  have h2 : (self.SetName "a b/c".toList).GetName = "a_b/c".toList := rfl
  refine ⟨h1, ?_, h2, ?_, rfl⟩
  · rw [h1]
    decide
  · rw [h2]
    decide

/-! ### Installation and the settings of a helper -/

/-- `SetName` touches the name only. -/
theorem SetName_frame (self : SatStatsHelper) (name : List Char) :
    (self.SetName name).m_identifierType = self.m_identifierType ∧
      (self.SetName name).m_outputType = self.m_outputType ∧
      (self.SetName name).m_isInstalled = self.m_isInstalled := by
  unfold SetName
  split <;> exact ⟨rfl, rfl, rfl⟩

/-- An installed helper keeps its identifier type, its output type and its
installed flag through any call. -/
theorem step_installed (self : SatStatsHelper) (call : Call)
    (hInstalled : self.m_isInstalled = true) :
    (self.step call).m_isInstalled = true ∧
      (self.step call).m_identifierType = self.m_identifierType ∧
      (self.step call).m_outputType = self.m_outputType := by
  cases call with
  | Install =>
    simp only [step, Install]
    split
    · exact ⟨hInstalled, rfl, rfl⟩
    · exact ⟨rfl, rfl, rfl⟩
  | SetName name =>
    obtain ⟨h1, h2, h3⟩ := SetName_frame self name
    exact ⟨by simp only [step, h3, hInstalled], by simp only [step, h1], by simp only [step, h2]⟩
  | SetIdentifierType identifierType =>
    by_cases hSame : self.m_identifierType = identifierType
    · simp [step, SetIdentifierType, hInstalled, hSame]
    · simp [step, SetIdentifierType, hInstalled, hSame]
  | SetOutputType outputType =>
    by_cases hSame : self.m_outputType = outputType
    · simp [step, SetOutputType, hInstalled, hSame]
    · simp [step, SetOutputType, hInstalled, hSame]

/-- An installed helper keeps its identifier type, its output type and its
installed flag through any sequence of calls. -/
theorem run_installed (self : SatStatsHelper) (calls : List Call)
    (hInstalled : self.m_isInstalled = true) :
    (self.run calls).m_isInstalled = true ∧
      (self.run calls).m_identifierType = self.m_identifierType ∧
      (self.run calls).m_outputType = self.m_outputType := by
  induction calls generalizing self with
  | nil => exact ⟨hInstalled, rfl, rfl⟩
  | cons call rest ih =>
    obtain ⟨h1, h2, h3⟩ := step_installed self call hInstalled
    obtain ⟨k1, k2, k3⟩ := ih (self.step call) h1
    exact ⟨k1, k2.trans h2, k3.trans h3⟩

/-- A call keeps the property that an installed helper has an output type other
than `OUTPUT_NONE`. -/
theorem step_invariant (self : SatStatsHelper) (call : Call)
    (hInv : self.m_isInstalled = true → self.m_outputType ≠ OutputType_t.OUTPUT_NONE) :
    (self.step call).m_isInstalled = true →
      (self.step call).m_outputType ≠ OutputType_t.OUTPUT_NONE := by
  by_cases hInstalled : self.m_isInstalled = true
  · obtain ⟨_, _, h3⟩ := step_installed self call hInstalled
    intro _
    rw [h3]
    exact hInv hInstalled
  · have hFalse : self.m_isInstalled = false := by simpa using hInstalled
    cases call with
    | Install =>
      simp only [step, Install]
      split
      · intro h
        exact absurd h hInstalled
      · intro _
        assumption
    | SetName name =>
      obtain ⟨_, _, h3⟩ := SetName_frame self name
      intro h
      simp only [step, h3] at h
      exact absurd h hInstalled
    | SetIdentifierType identifierType =>
      simp [step, SetIdentifierType, hFalse]
    | SetOutputType outputType =>
      simp [step, SetOutputType, hFalse]

/-- Any sequence of calls keeps the property that an installed helper has an
output type other than `OUTPUT_NONE`. -/
theorem run_invariant (self : SatStatsHelper) (calls : List Call)
    (hInv : self.m_isInstalled = true → self.m_outputType ≠ OutputType_t.OUTPUT_NONE) :
    (self.run calls).m_isInstalled = true →
      (self.run calls).m_outputType ≠ OutputType_t.OUTPUT_NONE := by
  induction calls generalizing self with
  | nil => exact hInv
  | cons call rest ih => exact ih (self.step call) (step_invariant self call hInv)

/-- C21: an installed helper cannot change its identifier type or its output
type. After any further calls of `Install`, `SetName`, `SetIdentifierType (x)`
and `SetOutputType (y)`, and in particular after one call of either setter,
`GetIdentifierType` and `GetOutputType` return what they returned before. On a
helper that is not installed, each getter returns the value last set. -/
theorem C21_settings_frozen_once_installed (installed : SatStatsHelper)
    (hInstalled : installed.m_isInstalled = true) (fresh : SatStatsHelper)
    (hFresh : fresh.m_isInstalled = false) (calls : List Call) (x : IdentifierType_t)
    (y : OutputType_t) :
    ((installed.run calls).GetIdentifierType = installed.GetIdentifierType ∧
        (installed.run calls).GetOutputType = installed.GetOutputType) ∧
      ((installed.SetIdentifierType x).GetIdentifierType = installed.GetIdentifierType ∧
        (installed.SetIdentifierType x).GetOutputType = installed.GetOutputType ∧
        (installed.SetOutputType y).GetOutputType = installed.GetOutputType ∧
        (installed.SetOutputType y).GetIdentifierType = installed.GetIdentifierType) ∧
      ((fresh.SetIdentifierType x).GetIdentifierType = x ∧
        (fresh.SetOutputType y).GetOutputType = y ∧
        ((fresh.SetIdentifierType x).SetOutputType y).GetIdentifierType = x ∧
        ((fresh.SetOutputType y).SetIdentifierType x).GetOutputType = y) := by
  obtain ⟨_, h2, h3⟩ := run_installed installed calls hInstalled
  obtain ⟨_, i2, i3⟩ := step_installed installed (Call.SetIdentifierType x) hInstalled
  obtain ⟨_, o2, o3⟩ := step_installed installed (Call.SetOutputType y) hInstalled
  refine ⟨⟨h2, h3⟩, ⟨i2, i3, o3, o2⟩, ?_⟩
  simp [SetIdentifierType, SetOutputType, GetIdentifierType, GetOutputType, hFresh]

/-- A helper installed with `OUTPUT_CDF_FILE` per beam keeps both settings
through further calls, and a new helper takes the values set. -/
theorem C21_settings_frozen_once_installed_witness :
    (((((new demoSatHelper).SetOutputType OutputType_t.OUTPUT_CDF_FILE).SetIdentifierType
        IdentifierType_t.IDENTIFIER_BEAM).Install.1).m_isInstalled = true) ∧
      (new demoSatHelper).m_isInstalled = false ∧
      (((((new demoSatHelper).SetOutputType OutputType_t.OUTPUT_CDF_FILE).SetIdentifierType
          IdentifierType_t.IDENTIFIER_BEAM).Install.1).run
          [Call.SetOutputType OutputType_t.OUTPUT_NONE,
            Call.SetIdentifierType IdentifierType_t.IDENTIFIER_UT, Call.Install]).GetOutputType
        = OutputType_t.OUTPUT_CDF_FILE ∧
      (((((new demoSatHelper).SetOutputType OutputType_t.OUTPUT_CDF_FILE).SetIdentifierType
          IdentifierType_t.IDENTIFIER_BEAM).Install.1).run
          [Call.SetOutputType OutputType_t.OUTPUT_NONE,
            Call.SetIdentifierType IdentifierType_t.IDENTIFIER_UT, Call.Install]).GetIdentifierType
        = IdentifierType_t.IDENTIFIER_BEAM ∧
      ((new demoSatHelper).SetIdentifierType IdentifierType_t.IDENTIFIER_UT).GetIdentifierType
        = IdentifierType_t.IDENTIFIER_UT :=
  have h := C21_settings_frozen_once_installed
    ((((new demoSatHelper).SetOutputType OutputType_t.OUTPUT_CDF_FILE).SetIdentifierType
      IdentifierType_t.IDENTIFIER_BEAM).Install.1) rfl (new demoSatHelper) rfl
    [Call.SetOutputType OutputType_t.OUTPUT_NONE,
      Call.SetIdentifierType IdentifierType_t.IDENTIFIER_UT, Call.Install]
    IdentifierType_t.IDENTIFIER_UT OutputType_t.OUTPUT_NONE
  ⟨rfl, rfl, h.1.2, h.1.1, h.2.2.1⟩

/-- C22: `Install` on a helper whose output type is `OUTPUT_NONE` does not call
`DoInstall` and leaves the helper as it is; a helper that was not installed is
then still not installed, and both setters still store their argument. On a
helper with any other output type `Install` calls `DoInstall` exactly once and
sets the installed flag, and nothing else. -/
theorem C22_install_skips_output_none (skipped : SatStatsHelper)
    (hNone : skipped.m_outputType = OutputType_t.OUTPUT_NONE) (other : SatStatsHelper)
    (hOther : other.m_outputType ≠ OutputType_t.OUTPUT_NONE) (x : IdentifierType_t)
    (y : OutputType_t) :
    skipped.Install = (skipped, 0) ∧
      (skipped.m_isInstalled = false →
        skipped.Install.1.m_isInstalled = false ∧
        (skipped.Install.1.SetIdentifierType x).GetIdentifierType = x ∧
        (skipped.Install.1.SetOutputType y).GetOutputType = y) ∧
      other.Install = ({ other with m_isInstalled := true }, 1) := by
  have hSkip : skipped.Install = (skipped, 0) := by simp [Install, hNone]
  refine ⟨hSkip, ?_, by simp [Install, hOther]⟩
  intro hFresh
  rw [hSkip]
  simp [SetIdentifierType, SetOutputType, GetIdentifierType, GetOutputType, hFresh]

/-- A new helper set to `OUTPUT_NONE` is skipped and stays open to changes; a
new helper with its initial output type is installed with one call of
`DoInstall`. -/
theorem C22_install_skips_output_none_witness :
    ((new demoSatHelper).SetOutputType OutputType_t.OUTPUT_NONE).m_outputType
        = OutputType_t.OUTPUT_NONE ∧
      (new demoSatHelper).m_outputType ≠ OutputType_t.OUTPUT_NONE ∧
      ((new demoSatHelper).SetOutputType OutputType_t.OUTPUT_NONE).Install.2 = 0 ∧
      ((((new demoSatHelper).SetOutputType OutputType_t.OUTPUT_NONE).Install.1).SetOutputType
        OutputType_t.OUTPUT_PDF_PLOT).GetOutputType = OutputType_t.OUTPUT_PDF_PLOT ∧
      (new demoSatHelper).Install.2 = 1 ∧
      (new demoSatHelper).Install.1.m_isInstalled = true :=
  have h := C22_install_skips_output_none
    ((new demoSatHelper).SetOutputType OutputType_t.OUTPUT_NONE) rfl (new demoSatHelper)
    (by decide) IdentifierType_t.IDENTIFIER_GW OutputType_t.OUTPUT_PDF_PLOT
  ⟨rfl, by decide, congrArg Prod.snd h.1, (h.2.1 rfl).2.2, congrArg Prod.snd h.2.2,
    congrArg (fun r => r.1.m_isInstalled) h.2.2⟩

/-- C26: in every state that a helper reaches from its construction by calls of
`Install`, `SetName`, `SetIdentifierType` and `SetOutputType`, in any number and
order, an installed helper has an output type other than `OUTPUT_NONE`. -/
theorem C26_installed_implies_output (satHelper : SatHelper) (calls : List Call)
    (hInstalled : ((new satHelper).run calls).m_isInstalled = true) :
    ((new satHelper).run calls).GetOutputType ≠ OutputType_t.OUTPUT_NONE :=
  run_invariant (new satHelper) calls (fun h => absurd h (by simp [new])) hInstalled

/-- A helper that is skipped with `OUTPUT_NONE`, then installed with
`OUTPUT_CDF_FILE`, and then asked to switch to `OUTPUT_NONE` is installed and
keeps `OUTPUT_CDF_FILE`. -/
theorem C26_installed_implies_output_witness :
    ((new demoSatHelper).run
        [Call.SetOutputType OutputType_t.OUTPUT_NONE, Call.Install,
          Call.SetOutputType OutputType_t.OUTPUT_CDF_FILE, Call.Install,
          Call.SetOutputType OutputType_t.OUTPUT_NONE, Call.SetName "a b".toList,
          Call.Install]).m_isInstalled = true ∧
      ((new demoSatHelper).run
        [Call.SetOutputType OutputType_t.OUTPUT_NONE, Call.Install,
          Call.SetOutputType OutputType_t.OUTPUT_CDF_FILE, Call.Install,
          Call.SetOutputType OutputType_t.OUTPUT_NONE, Call.SetName "a b".toList,
          Call.Install]).GetOutputType ≠ OutputType_t.OUTPUT_NONE :=
  ⟨rfl, C26_installed_implies_output demoSatHelper _ rfl⟩

/-- C28: `GetIdentifierForBeam` returns 0 for `IDENTIFIER_GLOBAL`, the beam id
for `IDENTIFIER_BEAM`, and 0 for `IDENTIFIER_UT` and `IDENTIFIER_UT_USER`. For
`IDENTIFIER_GW` it returns the id of the gateway that serves the beam when that
id is not 0, and the assertion stops the call when it is 0. -/
theorem C28_identifier_for_beam (self : SatStatsHelper) (beamId : Nat) :
    (self.m_identifierType = IdentifierType_t.IDENTIFIER_GLOBAL →
        self.GetIdentifierForBeam beamId = Except.ok 0) ∧
      (self.m_identifierType = IdentifierType_t.IDENTIFIER_BEAM →
        self.GetIdentifierForBeam beamId = Except.ok beamId) ∧
      (self.m_identifierType = IdentifierType_t.IDENTIFIER_GW →
        self.m_satHelper.GetGwId beamId ≠ 0 →
        self.GetIdentifierForBeam beamId = Except.ok (self.m_satHelper.GetGwId beamId)) ∧
      (self.m_identifierType = IdentifierType_t.IDENTIFIER_GW →
        self.m_satHelper.GetGwId beamId = 0 →
        self.GetIdentifierForBeam beamId = Except.error "Beam is not attached to any GW") ∧
      (self.m_identifierType = IdentifierType_t.IDENTIFIER_UT →
        self.GetIdentifierForBeam beamId = Except.ok 0) ∧
      (self.m_identifierType = IdentifierType_t.IDENTIFIER_UT_USER →
        self.GetIdentifierForBeam beamId = Except.ok 0) := by
  refine ⟨?_, ?_, ?_, ?_, ?_, ?_⟩
  · intro h
    simp [GetIdentifierForBeam, h]
  · intro h
    simp [GetIdentifierForBeam, h]
  · intro h hGw
    simp [GetIdentifierForBeam, h, hGw]
  · intro h hGw
    simp [GetIdentifierForBeam, h, hGw]
  · intro h
    simp [GetIdentifierForBeam, h]
  · intro h
    simp [GetIdentifierForBeam, h]

/-- Beam 9 of the scenario is served by gateway 3: the five identifier types
give 0, 3, 9, 0 and 0. -/
theorem C28_identifier_for_beam_witness :
    (new demoSatHelper).GetIdentifierForBeam 9 = Except.ok 0 ∧
      ((new demoSatHelper).SetIdentifierType IdentifierType_t.IDENTIFIER_GW).GetIdentifierForBeam 9
        = Except.ok 3 ∧
      ((new demoSatHelper).SetIdentifierType IdentifierType_t.IDENTIFIER_BEAM).GetIdentifierForBeam 9
        = Except.ok 9 ∧
      ((new demoSatHelper).SetIdentifierType IdentifierType_t.IDENTIFIER_UT).GetIdentifierForBeam 9
        = Except.ok 0 ∧
      ((new demoSatHelper).SetIdentifierType
        IdentifierType_t.IDENTIFIER_UT_USER).GetIdentifierForBeam 9 = Except.ok 0 :=
  ⟨(C28_identifier_for_beam (new demoSatHelper) 9).1 rfl,
    (C28_identifier_for_beam
      ((new demoSatHelper).SetIdentifierType IdentifierType_t.IDENTIFIER_GW) 9).2.2.1 rfl
      (by decide),
    (C28_identifier_for_beam
      ((new demoSatHelper).SetIdentifierType IdentifierType_t.IDENTIFIER_BEAM) 9).2.1 rfl,
    (C28_identifier_for_beam
      ((new demoSatHelper).SetIdentifierType IdentifierType_t.IDENTIFIER_UT) 9).2.2.2.2.1 rfl,
    (C28_identifier_for_beam
      ((new demoSatHelper).SetIdentifierType IdentifierType_t.IDENTIFIER_UT_USER) 9).2.2.2.2.2 rfl⟩

end SatStatsHelper

/-! ## How a reception ends -/

namespace SatUtMac

variable {D : Type}

/-- A packet from which no control-message tag is taken is left as it is. -/
theorem RemovePacketTag_none (packet : Packet) (hNone : packet.RemovePacketTag.1 = none) :
    packet.RemovePacketTag = (none, packet) := by
  have hTags : ∀ tags : List PacketTag, (removeCtrlTag tags).1 = none →
      (removeCtrlTag tags).2 = tags := by
    intro tags
    induction tags with
    | nil => intro _; rfl
    | cons x rest ih =>
      cases x with
      | mac tag =>
        intro h
        simp only [removeCtrlTag] at h ⊢
        rw [ih h]
      | ctrl tag =>
        intro h
        simp [removeCtrlTag] at h
      | other typeId =>
        intro h
        simp only [removeCtrlTag] at h ⊢
        rw [ih h]
  have h1 : (removeCtrlTag packet.m_packetTagList).1 = none := hNone
  simp only [Packet.RemovePacketTag, h1, hTags _ h1]

/-- C24: for a packet addressed to the terminal or to broadcast whose
control-message tag has the type `SAT_NON_CTRL_MSG`, `Receive` ends in the fatal
error "A control message received with not valid msg type!" right after the
three trace sources: the receive callback of the upper layer is not called, and
the control handler is not run (nothing is scheduled). -/
theorem C24_non_ctrl_tag_is_fatal (ops : DoubleOps D)
    (deserialize : List Nat → SatTbtpHeader × Nat) (self : SatUtMac D) (packet : Packet)
    (macTag : SatMacTag) (hTag : packet.PeekPacketTag = some macTag)
    (hMine : macTag.GetDestAddress = self.m_macAddress
      ∨ macTag.GetDestAddress = Mac48Address.GetBroadcast)
    (hCtrl : packet.RemovePacketTag.1 = some ⟨SatControlMsgType_t.SAT_NON_CTRL_MSG⟩) :
    Receive ops deserialize self packet
        = ⟨hooksTrace packet, some "A control message received with not valid msg type!"⟩ ∧
      (Receive ops deserialize self packet).trace.filter Effect.isRxCallback = [] ∧
      (Receive ops deserialize self packet).trace.filter Effect.isSchedule = [] := by
  have hAddr : (macTag.GetDestAddress == self.m_macAddress
      || macTag.GetDestAddress.IsBroadcast) = true := by
    rcases hMine with h | h <;> simp [h, Mac48Address.IsBroadcast]
  have hRemove : packet.RemovePacketTag
      = (some ⟨SatControlMsgType_t.SAT_NON_CTRL_MSG⟩, packet.RemovePacketTag.2) := by
    rw [← hCtrl]
  have hRun : Receive ops deserialize self packet
      = ⟨hooksTrace packet, some "A control message received with not valid msg type!"⟩ := by
    simp only [Receive, hTag, hAddr, if_true]
    rw [hRemove]
    simp [Outcome.andThen, hooksTrace]
  rw [hRun]
  simp [hooksTrace, Effect.isRxCallback, Effect.isSchedule]

/-- A packet for the terminal of the scenario with a "no control message" tag
is fatal there. -/
theorem C24_non_ctrl_tag_is_fatal_witness :
    nonCtrlPacket.PeekPacketTag = some ⟨demoAddress, otherAddress⟩ ∧
      (demoAddress = (demoMac true).m_macAddress ∨ demoAddress = Mac48Address.GetBroadcast) ∧
      nonCtrlPacket.RemovePacketTag.1 = some ⟨SatControlMsgType_t.SAT_NON_CTRL_MSG⟩ ∧
      (Receive exactOps demoDeserialize (demoMac true) nonCtrlPacket
          = ⟨hooksTrace nonCtrlPacket,
              some "A control message received with not valid msg type!"⟩ ∧
        (Receive exactOps demoDeserialize (demoMac true) nonCtrlPacket).trace.filter
          Effect.isRxCallback = [] ∧
        (Receive exactOps demoDeserialize (demoMac true) nonCtrlPacket).trace.filter
          Effect.isSchedule = []) :=
  ⟨by decide, Or.inl rfl, by decide,
    C24_non_ctrl_tag_is_fatal exactOps demoDeserialize (demoMac true) nonCtrlPacket
      ⟨demoAddress, otherAddress⟩ (by decide) (Or.inl rfl) (by decide)⟩

/-- C25: when `ReceiveSignalingPacket` gets the type `SAT_TBTP_CTRL_MSG` and
`RemoveHeader` takes 0 bytes from the packet, it makes no call, so it schedules
no transmission event, and it ends without a fatal error. -/
theorem C25_empty_header_is_ignored (ops : DoubleOps D)
    (deserialize : List Nat → SatTbtpHeader × Nat) (self : SatUtMac D) (packet : Packet)
    (hZero : (deserialize packet.m_buffer).2 = 0) :
    ReceiveSignalingPacket ops deserialize self packet SatControlMsgType_t.SAT_TBTP_CTRL_MSG
      = ⟨[], none⟩ := by
  simp [ReceiveSignalingPacket, hZero]

/-- With a decoder that takes 0 bytes, the burst-time-plan packet of the
scenario schedules nothing, although the header read holds a grant for the
terminal. -/
theorem C25_empty_header_is_ignored_witness :
    (emptyDeserialize tbtpPacket.m_buffer).2 = 0 ∧
      ((emptyDeserialize tbtpPacket.m_buffer).1.GetTimeslots (demoMac true).m_macAddress
        = [⟨0, 0⟩]) ∧
      ReceiveSignalingPacket exactOps emptyDeserialize (demoMac true) tbtpPacket
        SatControlMsgType_t.SAT_TBTP_CTRL_MSG = ⟨[], none⟩ :=
  ⟨rfl, by decide,
    C25_empty_header_is_ignored exactOps emptyDeserialize (demoMac true) tbtpPacket rfl⟩

/-- The control handler never calls the receive callback of the upper layer. -/
theorem ReceiveSignalingPacket_filter_isRxCallback (ops : DoubleOps D)
    (deserialize : List Nat → SatTbtpHeader × Nat) (self : SatUtMac D) (packet : Packet)
    (cType : SatControlMsgType_t) :
    (ReceiveSignalingPacket ops deserialize self packet cType).trace.filter Effect.isRxCallback
      = [] := by
  cases cType with
  | SAT_TBTP_CTRL_MSG =>
    unfold ReceiveSignalingPacket
    by_cases h : (deserialize packet.m_buffer).2 > 0
    · simp [h, ScheduleTimeSlots_filter_isRxCallback]
    · simp [h]
  | SAT_NON_CTRL_MSG => simp [ReceiveSignalingPacket]
  | SAT_RA_CTRL_MSG => simp [ReceiveSignalingPacket]
  | SAT_CR_CTRL_MSG => simp [ReceiveSignalingPacket]
  | SAT_OTHER_CTRL_MSG value => simp [ReceiveSignalingPacket]

/-- The three ways to end exclude one another, so a run that ends in one of
them ends in exactly one. -/
theorem exactly_one_ending (ops : DoubleOps D) (deserialize : List Nat → SatTbtpHeader × Nat)
    (self : SatUtMac D) (o : Outcome D) (packet : Packet)
    (hSome : endsFatal o ∨ endsForwarded o packet
      ∨ endsControlHandled ops deserialize self o packet) :
    (endsFatal o ∧ ¬ endsForwarded o packet
        ∧ ¬ endsControlHandled ops deserialize self o packet) ∨
      (¬ endsFatal o ∧ endsForwarded o packet
        ∧ ¬ endsControlHandled ops deserialize self o packet) ∨
      (¬ endsFatal o ∧ ¬ endsForwarded o packet
        ∧ endsControlHandled ops deserialize self o packet) := by
  have hFatalForwarded : endsFatal o → ¬ endsForwarded o packet := fun hF hB => hF hB.1
  have hFatalHandled : endsFatal o → ¬ endsControlHandled ops deserialize self o packet :=
    fun hF hC => hF hC.1
  have hForwardedHandled : endsForwarded o packet →
      ¬ endsControlHandled ops deserialize self o packet := by
    rintro ⟨_, destAddress, hTrace⟩ ⟨_, hNoRx, _⟩
    rw [hTrace] at hNoRx
    simp [hooksTrace, Effect.isRxCallback] at hNoRx
  rcases hSome with hF | hB | hC
  · exact Or.inl ⟨hF, hFatalForwarded hF, hFatalHandled hF⟩
  · exact Or.inr (Or.inl ⟨fun hF => hFatalForwarded hF hB, hB, hForwardedHandled hB⟩)
  · exact Or.inr (Or.inr ⟨fun hF => hFatalHandled hF hC,
      fun hB => hForwardedHandled hB hC, hC⟩)

/-- How `Receive` ends and what it calls, case by case. -/
theorem Receive_endings (ops : DoubleOps D) (deserialize : List Nat → SatTbtpHeader × Nat)
    (self : SatUtMac D) (packet : Packet) :
    (endsFatal (Receive ops deserialize self packet)
        ∨ endsForwarded (Receive ops deserialize self packet) packet
        ∨ endsControlHandled ops deserialize self (Receive ops deserialize self packet)
            packet) ∧
      ((Receive ops deserialize self packet).trace.filter Effect.isRxCallback).length ≤ 1 ∧
      ((Receive ops deserialize self packet).trace.filter Effect.isRxCallback = []
        ∨ (Receive ops deserialize self packet).trace.filter Effect.isSchedule = []) := by
  cases hTag : packet.PeekPacketTag with
  | none =>
    have hRun : Receive ops deserialize self packet
        = ⟨hooksTrace packet, some "MAC tag was not found from the packet!"⟩ := by
      simp [Receive, hTag, Outcome.andThen, hooksTrace]
    rw [hRun]
    exact ⟨Or.inl (by simp [endsFatal]), by simp [hooksTrace, Effect.isRxCallback],
      Or.inl (by simp [hooksTrace, Effect.isRxCallback])⟩
  | some macTag =>
    by_cases hAddr : (macTag.GetDestAddress == self.m_macAddress
        || macTag.GetDestAddress.IsBroadcast) = true
    · cases hCtrl : packet.RemovePacketTag.1 with
      | none =>
        have hRemove := RemovePacketTag_none packet hCtrl
        have hRun : Receive ops deserialize self packet
            = ⟨hooksTrace packet ++ [Effect.rxCallback packet macTag.GetDestAddress], none⟩ := by
          simp only [Receive, hTag, hAddr, hRemove, if_true]
          simp [Outcome.andThen, hooksTrace]
        rw [hRun]
        exact ⟨Or.inr (Or.inl ⟨rfl, macTag.GetDestAddress, rfl⟩),
          by simp [hooksTrace, Effect.isRxCallback],
          Or.inr (by simp [hooksTrace, Effect.isSchedule])⟩
      | some ctrlTag =>
        have hRemove : packet.RemovePacketTag = (some ctrlTag, packet.RemovePacketTag.2) := by
          rw [← hCtrl]
        by_cases hType : ctrlTag.GetMsgType = SatControlMsgType_t.SAT_NON_CTRL_MSG
        · have hRun : Receive ops deserialize self packet
              = ⟨hooksTrace packet,
                  some "A control message received with not valid msg type!"⟩ := by
            simp only [Receive, hTag, hAddr, if_true]
            rw [hRemove]
            simp [Outcome.andThen, hooksTrace, hType]
          rw [hRun]
          exact ⟨Or.inl (by simp [endsFatal]), by simp [hooksTrace, Effect.isRxCallback],
            Or.inl (by simp [hooksTrace, Effect.isRxCallback])⟩
        · have hRun : Receive ops deserialize self packet
              = Outcome.andThen ⟨hooksTrace packet, none⟩
                  (ReceiveSignalingPacket ops deserialize self
                    packet.RemovePacketTag.2.RemovePacketTag.2 ctrlTag.GetMsgType) := by
            simp only [Receive, hTag, hAddr, if_true]
            rw [hRemove]
            simp [hooksTrace, hType]
          have hNoRx : (Receive ops deserialize self packet).trace.filter Effect.isRxCallback
              = [] := by
            rw [hRun]
            simp [Outcome.andThen, hooksTrace, Effect.isRxCallback,
              ReceiveSignalingPacket_filter_isRxCallback]
          refine ⟨?_, by simp [hNoRx], Or.inl hNoRx⟩
          cases hFatal : (Receive ops deserialize self packet).fatal with
          | some msg => exact Or.inl (by simp [endsFatal, hFatal])
          | none => exact Or.inr (Or.inr ⟨hFatal, hNoRx, ctrlTag.GetMsgType, hType, hRun⟩)
    · have hRun : Receive ops deserialize self packet
          = ⟨hooksTrace packet, some "UT received a packet not intended for it"⟩ := by
        simp [Receive, hTag, hAddr, Outcome.andThen, hooksTrace]
      rw [hRun]
      exact ⟨Or.inl (by simp [endsFatal]), by simp [hooksTrace, Effect.isRxCallback],
        Or.inl (by simp [hooksTrace, Effect.isRxCallback])⟩

/-- C23: for every packet and terminal state `Receive` ends in exactly one of
three ways: in a fatal error; normally, after exactly one call of the receive
callback of the upper layer and no control handling; or normally in the control
handler, without a call of the receive callback. It calls the receive callback
at most once, and it never both calls it and schedules a transmission event. A
run that the control handler stops with a fatal error counts as ending in a
fatal error. -/
theorem C23_receive_ends_one_way (ops : DoubleOps D)
    (deserialize : List Nat → SatTbtpHeader × Nat) (self : SatUtMac D) (packet : Packet) :
    ((endsFatal (Receive ops deserialize self packet)
          ∧ ¬ endsForwarded (Receive ops deserialize self packet) packet
          ∧ ¬ endsControlHandled ops deserialize self (Receive ops deserialize self packet)
              packet) ∨
        (¬ endsFatal (Receive ops deserialize self packet)
          ∧ endsForwarded (Receive ops deserialize self packet) packet
          ∧ ¬ endsControlHandled ops deserialize self (Receive ops deserialize self packet)
              packet) ∨
        (¬ endsFatal (Receive ops deserialize self packet)
          ∧ ¬ endsForwarded (Receive ops deserialize self packet) packet
          ∧ endsControlHandled ops deserialize self (Receive ops deserialize self packet)
              packet)) ∧
      ((Receive ops deserialize self packet).trace.filter Effect.isRxCallback).length ≤ 1 ∧
      ((Receive ops deserialize self packet).trace.filter Effect.isRxCallback = []
        ∨ (Receive ops deserialize self packet).trace.filter Effect.isSchedule = []) :=
  ⟨exactly_one_ending ops deserialize self _ packet
      (Receive_endings ops deserialize self packet).1,
    (Receive_endings ops deserialize self packet).2⟩

end SatUtMac

/-! ## What `SetName` stores -/

/-- An index that the search finds holds a character of `accept`, and no
earlier index at or after `pos` does. -/
theorem findFirstOfFrom_found (accept : List Char) (pos : Nat) (chars : List Char)
    (index found : Nat) (hFound : findFirstOfFrom accept pos chars index = some found) :
    ∃ k, found = index + k ∧ (∃ c, chars[k]? = some c ∧ c ∈ accept) ∧
      ∀ j c, j < k → pos ≤ index + j → chars[j]? = some c → c ∉ accept := by
  induction chars generalizing index with
  | nil => simp [findFirstOfFrom] at hFound
  | cons c rest ih =>
    unfold findFirstOfFrom at hFound
    by_cases hHit : pos ≤ index ∧ c ∈ accept
    · rw [if_pos hHit] at hFound
      have hEq : index = found := Option.some.inj hFound
      subst hEq
      exact ⟨0, rfl, ⟨c, by simp, hHit.2⟩, fun j _ hj => absurd hj (Nat.not_lt_zero j)⟩
    · rw [if_neg hHit] at hFound
      obtain ⟨k, hk, hAt, hBefore⟩ := ih (index + 1) hFound
      refine ⟨k + 1, by omega, by simpa using hAt, ?_⟩
      intro j d hj hPos hd
      cases j with
      | zero =>
        simp only [List.getElem?_cons_zero, Option.some.injEq] at hd
        subst hd
        exact fun hIn => hHit ⟨by simpa using hPos, hIn⟩
      | succ j =>
        simp only [List.getElem?_cons_succ] at hd
        exact hBefore j d (by omega) (by omega) hd

/-- When the search finds nothing, no index at or after `pos` holds a character
of `accept`. -/
theorem findFirstOfFrom_none (accept : List Char) (pos : Nat) (chars : List Char)
    (index : Nat) (hNone : findFirstOfFrom accept pos chars index = none) :
    ∀ j c, pos ≤ index + j → chars[j]? = some c → c ∉ accept := by
  induction chars generalizing index with
  | nil => intro j c _ hc; simp at hc
  | cons c rest ih =>
    unfold findFirstOfFrom at hNone
    by_cases hHit : pos ≤ index ∧ c ∈ accept
    · rw [if_pos hHit] at hNone
      simp at hNone
    · rw [if_neg hHit] at hNone
      intro j d hPos hd
      cases j with
      | zero =>
        simp only [List.getElem?_cons_zero, Option.some.injEq] at hd
        subst hd
        exact fun hIn => hHit ⟨by simpa using hPos, hIn⟩
      | succ j =>
        simp only [List.getElem?_cons_succ] at hd
        exact ih (index + 1) hNone j d (by omega) hd


namespace SatStatsHelper

/-- What the loop of `SetName` returns, when it starts at a position that holds a
space or a slash and has no space before it (or at no position, in a name
without spaces): a name of the same length without spaces in which a position
either keeps its character or holds an underscore, and keeps it when the
character is neither a space nor a slash. -/
theorem setNameLoop_result (fuel : Nat) (name : List Char) (pos : Option Nat)
    (converted : List Char)
    (hPos : ∀ p, pos = some p →
      (name[p]? = some ' ' ∨ name[p]? = some '/') ∧ ∀ i, i < p → name[i]? ≠ some ' ')
    (hEnd : pos = none → ∀ i : Nat, name[i]? ≠ some ' ')
    (hRun : setNameLoop fuel name pos = some converted) :
    converted.length = name.length ∧
      (∀ (i : Nat) (c : Char), name[i]? = some c → c ≠ ' ' → c ≠ '/' → converted[i]? = some c) ∧
      (∀ (i : Nat) (c : Char), name[i]? = some c →
        converted[i]? = some c ∨ converted[i]? = some '_') ∧
      ∀ i : Nat, converted[i]? ≠ some ' ' := by
  induction fuel generalizing name pos with
  | zero =>
    cases pos with
    | none =>
      simp only [setNameLoop, Option.some.injEq] at hRun
      subst hRun
      refine ⟨rfl, ?_, ?_, hEnd rfl⟩
      · intro i c h _ _
        exact h
      · intro i c h
        exact Or.inl h
    | some p => simp [setNameLoop] at hRun
  | succ fuel ih =>
    cases pos with
    | none =>
      simp only [setNameLoop, Option.some.injEq] at hRun
      subst hRun
      refine ⟨rfl, ?_, ?_, hEnd rfl⟩
      · intro i c h _ _
        exact h
      · intro i c h
        exact Or.inl h
    | some p =>
      simp only [setNameLoop] at hRun
      obtain ⟨hAt, hBefore⟩ := hPos p rfl
      have hpLt : p < name.length := by
        rcases hAt with h | h <;> exact (List.getElem?_eq_some.mp h).1
      have hSetAt : (name.set p '_')[p]? = some '_' := by
        simp [List.getElem?_set, hpLt]
      have hSetNe : ∀ i, i ≠ p → (name.set p '_')[i]? = name[i]? := by
        intro i hi
        simp [List.getElem?_set, Ne.symm hi]
      have hTake : List.take 1 [' ', '/'] = [' '] := rfl
      have hPos' : ∀ q, find_first_of (name.set p '_') [' ', '/'] (p + 1) 1 = some q →
          ((name.set p '_')[q]? = some ' ' ∨ (name.set p '_')[q]? = some '/') ∧
            ∀ i, i < q → (name.set p '_')[i]? ≠ some ' ' := by
        intro q hq
        unfold find_first_of at hq
        rw [hTake] at hq
        obtain ⟨k, hk, ⟨c, hc, hcIn⟩, hFirst⟩ := findFirstOfFrom_found _ _ _ _ _ hq
        have hqk : q = k := by omega
        subst hqk
        have hc' : c = ' ' := by simpa using hcIn
        subst hc'
        refine ⟨Or.inl hc, ?_⟩
        intro i hi hSpace
        rcases Nat.lt_trichotomy i p with hlt | heq | hgt
        · rw [hSetNe i (by omega)] at hSpace
          exact hBefore i hlt hSpace
        · subst heq
          rw [hSetAt] at hSpace
          simp at hSpace
        · exact hFirst i ' ' hi (by omega) hSpace (by simp)
      have hEnd' : find_first_of (name.set p '_') [' ', '/'] (p + 1) 1 = none →
          ∀ i : Nat, (name.set p '_')[i]? ≠ some ' ' := by
        intro hq i hSpace
        unfold find_first_of at hq
        rw [hTake] at hq
        rcases Nat.lt_trichotomy i p with hlt | heq | hgt
        · rw [hSetNe i (by omega)] at hSpace
          exact hBefore i hlt hSpace
        · subst heq
          rw [hSetAt] at hSpace
          simp at hSpace
        · exact findFirstOfFrom_none _ _ _ _ hq i ' ' (by omega) hSpace (by simp)
      obtain ⟨hLen, hKeep, hEither, hNoSpace⟩ := ih (name.set p '_') _ hPos' hEnd' hRun
      refine ⟨by simpa using hLen, ?_, ?_, hNoSpace⟩
      · intro i c hc hNotSpace hNotSlash
        have hip : i ≠ p := by
          rintro rfl
          rcases hAt with h | h <;> rw [h] at hc <;> simp at hc
          · exact hNotSpace hc.symm
          · exact hNotSlash hc.symm
        exact hKeep i c (by rw [hSetNe i hip]; exact hc) hNotSpace hNotSlash
      · intro i c hc
        by_cases hip : i = p
        · subst hip
          right
          rcases hEither i '_' hSetAt with h | h <;> exact h
        · exact hEither i c (by rw [hSetNe i hip]; exact hc)

/-- C27: for every name, `SetName` stores a name of the same length in which
every character that is neither a space nor a slash is unchanged at its
position, every other position holds the original character or an underscore,
and no space is left; the identifier type, the output type and the installed
flag are unchanged. -/
theorem C27_set_name_frame (self : SatStatsHelper) (name : List Char) :
    (self.SetName name).GetName.length = name.length ∧
      (∀ (i : Nat) (c : Char), name[i]? = some c → c ≠ ' ' → c ≠ '/' →
        (self.SetName name).GetName[i]? = some c) ∧
      (∀ (i : Nat) (c : Char), name[i]? = some c →
        (self.SetName name).GetName[i]? = some c ∨ (self.SetName name).GetName[i]? = some '_') ∧
      ' ' ∉ (self.SetName name).GetName ∧
      (self.SetName name).GetIdentifierType = self.GetIdentifierType ∧
      (self.SetName name).GetOutputType = self.GetOutputType ∧
      (self.SetName name).m_isInstalled = self.m_isInstalled := by
  obtain ⟨converted, hConverted⟩ := setNameLoop_isSome name
  have hName : (self.SetName name).GetName = converted := by
    simp [SetName, GetName, hConverted]
  have hTake : List.take 2 [' ', '/'] = [' ', '/'] := rfl
  have hPos : ∀ p, find_first_of name [' ', '/'] 0 2 = some p →
      (name[p]? = some ' ' ∨ name[p]? = some '/') ∧ ∀ i, i < p → name[i]? ≠ some ' ' := by
    intro p hp
    unfold find_first_of at hp
    rw [hTake] at hp
    obtain ⟨k, hk, ⟨c, hc, hcIn⟩, hFirst⟩ := findFirstOfFrom_found _ _ _ _ _ hp
    have hpk : p = k := by omega
    subst hpk
    refine ⟨?_, ?_⟩
    · rcases List.mem_cons.mp hcIn with h | h
      · exact Or.inl (by rw [hc, h])
      · exact Or.inr (by rw [hc, List.mem_singleton.mp h])
    · intro i hi hSpace
      exact hFirst i ' ' hi (by omega) hSpace (by simp)
  have hEnd : find_first_of name [' ', '/'] 0 2 = none → ∀ i : Nat, name[i]? ≠ some ' ' := by
    intro hp i hSpace
    unfold find_first_of at hp
    rw [hTake] at hp
    exact findFirstOfFrom_none _ _ _ _ hp i ' ' (by omega) hSpace (by simp)
  obtain ⟨hLen, hKeep, hEither, hNoSpace⟩ :=
    setNameLoop_result _ name _ converted hPos hEnd hConverted
  obtain ⟨f1, f2, f3⟩ := SetName_frame self name
  rw [hName]
  refine ⟨hLen, hKeep, hEither, ?_, f1, f2, f3⟩
  intro hMem
  obtain ⟨i, hi⟩ := List.mem_iff_getElem?.mp hMem
  exact hNoSpace i hi

/-- The name "a/b c/ d" of eight characters is stored as "a_b_c/_d": the first
slash and both spaces become underscores, the letters and the later slash
stay. -/
theorem C27_set_name_frame_witness :
    ((new demoSatHelper).SetName "a/b c/ d".toList).GetName = "a_b_c/_d".toList ∧
      ((new demoSatHelper).SetName "a/b c/ d".toList).GetName.length = "a/b c/ d".toList.length ∧
      ' ' ∉ ((new demoSatHelper).SetName "a/b c/ d".toList).GetName :=
  ⟨rfl, (C27_set_name_frame (new demoSatHelper) "a/b c/ d".toList).1,
    (C27_set_name_frame (new demoSatHelper) "a/b c/ d".toList).2.2.2.1⟩

end SatStatsHelper

end ns3
